import Mathlib

/-!
Shallow embedding of the MarbleRun coordinator's marble-activation core
(package `core`, file `marbleapi.go`, together with the manifest model of
`manifest.go`) and proofs about its behaviour.

Modelling conventions:
* Go byte slices are `List Nat`; Go strings are Lean `String`.
* Go maps are association lists `List (String × α)`; `alookup` is map read,
  `alookupD` is map read with the Go zero value as default, `upsert` is map
  write.  A Go `range` over a map iterates the list in its order; since Go's
  map iteration order is unspecified, two runs over the same map are modelled
  by two lists that are permutations of each other.
* External effects (crypto, randomness, time, the sealed store's transient
  I/O behaviour) are supplied by oracle structures; the control flow around
  them is translated from the source.
* Fallible Go functions returning `(T, error)` become `Except GoErr T`;
  functions that also mutate the store additionally return the new store.
-/

deriving instance DecidableEq for Except

/-- Go `[]byte`. -/
abbrev Bytes := List Nat

/-- Association-list read, modelling a Go map read that distinguishes
presence (`m[k], ok`). -/
def alookup {α : Type} : List (String × α) → String → Option α
  | [], _ => none
  | kv :: t, k => if kv.1 = k then some kv.2 else alookup t k

/-- Association-list read with default, modelling a Go map read `m[k]`
that yields the zero value on a missing key. -/
def alookupD {α : Type} (l : List (String × α)) (k : String) (d : α) : α :=
  (alookup l k).getD d

/-- Association-list write, modelling a Go map assignment `m[k] = v`. -/
def upsert {α : Type} : List (String × α) → String → α → List (String × α)
  | [], k, v => [(k, v)]
  | kv :: t, k, v => if kv.1 = k then (k, v) :: t else kv :: upsert t k v

/-- The keys of an association list are pairwise distinct (true of every
list that stands for a Go map). -/
def keysNodup {α : Type} (l : List (String × α)) : Prop :=
  (l.map Prod.fst).Nodup

/-- gRPC status codes used by the activation core (`google.golang.org/grpc/codes`).
`Unknown` is the code gRPC assigns to a plain Go error that carries no status. -/
inductive Code where
  | FailedPrecondition
  | Unauthenticated
  | InvalidArgument
  | ResourceExhausted
  | Internal
  | Unknown
deriving DecidableEq

/-- Go error values produced by the activation core.  `status c msg` is a
`status.Error(c, msg)`; the other constructors are plain errors coming from
libraries (uuid parsing, templating, the store), which carry no status code. -/
inductive GoErr where
  | status (c : Code) (msg : String)
  | uuidParseError (msg : String)
  | templateError (msg : String)
  | storeError (msg : String)
  | storeValueUnset
  | cryptoError (msg : String)
deriving DecidableEq

/-- The gRPC code a returned error surfaces with: `status` errors carry their
code, every other Go error is mapped to `Unknown` by the gRPC layer. -/
def grpcCode : GoErr → Code
  | .status c _ => c
  | _ => .Unknown

/-- `store.IsStoreValueUnsetError` from the store package. -/
def IsStoreValueUnsetError : GoErr → Bool
  | .storeValueUnset => true
  | _ => false

/-- The fields of `x509.Certificate` the embedded code reads: the raw DER
bytes and the issuer organisation (used when re-stamping a CSR subject). -/
structure Certificate where
  raw : Bytes
  issuerOrg : List String
deriving DecidableEq

/-- Go zero value of a certificate. -/
def Certificate.zero : Certificate := { raw := [], issuerOrg := [] }

/-- The field of `ecdsa.PrivateKey` the embedded code reads (`privk.D.Bytes()`). -/
structure PrivKey where
  D : Bytes
deriving DecidableEq

/-- `manifest.Secret`: certificates and keys usable from manifest templates.
The Go field `Type` is rendered `SType` (`Type` is reserved in Lean). -/
structure Secret where
  SType : String
  Size : Nat
  Shared : Bool
  Cert : Certificate
  ValidFor : Nat
  Private : Bytes
  Public : Bytes
deriving DecidableEq

/-- Go zero value of `manifest.Secret`, produced by a map read on a missing key. -/
def Secret.zero : Secret :=
  { SType := "", Size := 0, Shared := false, Cert := Certificate.zero,
    ValidFor := 0, Private := [], Public := [] }

/-- The dynamic type of a value handed to the `encodeSecretData*` helpers,
mirroring the `interface{}` switch in `manifest.go`: `manifest.Certificate`,
`manifest.PublicKey`, `manifest.PrivateKey`, `manifest.Secret` or `[]byte`. -/
inductive SecretData where
  | certV (c : Certificate)
  | pubV (b : Bytes)
  | privV (b : Bytes)
  | secretV (s : Secret)
  | bytesV (b : Bytes)
deriving DecidableEq

/-- Standard base64 alphabet (`encoding/base64` StdEncoding). -/
def base64Chars : List Char :=
  "ABCDEFGHIJKLMNOPQRSTUVWXYZabcdefghijklmnopqrstuvwxyz0123456789+/".toList

/-- Standard base64 with padding, modelling `base64.StdEncoding.EncodeToString`. -/
def base64Encode : Bytes → String
  | [] => ""
  | [a] =>
      String.mk [base64Chars.getD (a % 256 / 4) 'A',
                 base64Chars.getD (a % 4 * 16) 'A'] ++ "=="
  | [a, b] =>
      String.mk [base64Chars.getD (a % 256 / 4) 'A',
                 base64Chars.getD (a % 4 * 16 + b % 256 / 16) 'A',
                 base64Chars.getD (b % 16 * 4) 'A'] ++ "="
  | a :: b :: c :: rest =>
      String.mk [base64Chars.getD (a % 256 / 4) 'A',
                 base64Chars.getD (a % 4 * 16 + b % 256 / 16) 'A',
                 base64Chars.getD (b % 16 * 4 + c % 256 / 64) 'A',
                 base64Chars.getD (c % 64) 'A'] ++ base64Encode rest

/-- `pem.EncodeToMemory` of a block with the given type and payload.  The
64-column line wrapping of long payloads is omitted (all payloads in this
development are a single line); an empty payload yields an empty body,
matching `encoding/pem`. -/
def pemEncodeToMemory (blockType : String) (b : Bytes) : String :=
  "-----BEGIN " ++ blockType ++ "-----\n" ++
    (if b.isEmpty then "" else base64Encode b ++ "\n") ++
    "-----END " ++ blockType ++ "-----\n"

/-- Go `string(bytes)` conversion. -/
def bytesToString (b : Bytes) : String :=
  String.mk (b.map Char.ofNat)

/-- Go `[]byte(s)` conversion. -/
def stringToBytes (s : String) : Bytes :=
  s.toList.map Char.toNat

/-- Lower-case hex digit of a nibble. -/
def hexDigit (n : Nat) : Char :=
  "0123456789abcdef".toList.getD (n % 16) '0'

/-- `hex.EncodeToString`. -/
def hexEncode (b : Bytes) : String :=
  String.mk (b.flatMap (fun x => [hexDigit (x % 256 / 16), hexDigit (x % 16)]))

/-- `encodeSecretDataToPem` from `manifest.go`: PEM-encode a certificate,
public key or private key; any other dynamic type is an error. -/
def encodeSecretDataToPem : SecretData → Except GoErr String
  | .certV c => .ok (pemEncodeToMemory "CERTIFICATE" c.raw)
  | .pubV b => .ok (pemEncodeToMemory "PUBLIC KEY" b)
  | .privV b => .ok (pemEncodeToMemory "PRIVATE KEY" b)
  | _ => .error (.templateError "invalid secret type")

/-- `encodeSecretDataToRaw` from `manifest.go`. -/
def encodeSecretDataToRaw : SecretData → Except GoErr String
  | .bytesV b => .ok (bytesToString b)
  | .privV b => .ok (bytesToString b)
  | .pubV b => .ok (bytesToString b)
  | .secretV s => .ok (bytesToString s.Public)
  | .certV c => .ok (bytesToString c.raw)

/-- `encodeSecretDataToHex` from `manifest.go`. -/
def encodeSecretDataToHex (d : SecretData) : Except GoErr String :=
  match encodeSecretDataToRaw d with
  | .error e => .error e
  | .ok raw => .ok (hexEncode (stringToBytes raw))

/-- `encodeSecretDataToBase64` from `manifest.go`. -/
def encodeSecretDataToBase64 (d : SecretData) : Except GoErr String :=
  match encodeSecretDataToRaw d with
  | .error e => .error e
  | .ok raw => .ok (base64Encode (stringToBytes raw))

/-- `quote.PackageProperties`: the enclave identity a quote is checked
against.  Only `SecurityVersion` is read by the embedded code (the update
overlay); the measurement fields are never inspected here and are omitted. -/
structure PackageProperties where
  SecurityVersion : Nat
deriving DecidableEq

/-- `quote.InfrastructureProperties`: platform attestation claims.  The
embedded code never reads its fields, only passes whole values to the quote
validator, so an abstract identifier stands for the contents. -/
structure InfrastructureProperties where
  props : Nat
deriving DecidableEq

/-- Go zero value `quote.InfrastructureProperties{}`. -/
def InfrastructureProperties.zero : InfrastructureProperties := { props := 0 }

/-- `rpc.Parameters`: the customizable data handed to a marble. -/
structure Parameters where
  Argv : List String
  Files : List (String × String)
  Env : List (String × String)
deriving DecidableEq

/-- Go `&rpc.Parameters{}`. -/
def Parameters.empty : Parameters := { Argv := [], Files := [], Env := [] }

/-- One entry of a TLS tag (`manifest.TLSTagEntry`).  The TLS types are not
among the provided manifest sources; fields are as used by `setTTLSConfig`
and listed in the spec (§3): `Port`, `Addr`, `Cert`, `DisableClientAuth`. -/
structure TLSTagEntry where
  Port : String
  Addr : String
  Cert : String
  DisableClientAuth : Bool
deriving DecidableEq

/-- A TLS tag (`manifest.TLStag`): incoming and outgoing connection entries. -/
structure TLStag where
  Outgoing : List TLSTagEntry
  Incoming : List TLSTagEntry
deriving DecidableEq

/-- Go zero value `manifest.TLStag{}`, produced by a map read on a missing tag. -/
def TLStag.zero : TLStag := { Outgoing := [], Incoming := [] }

/-- `manifest.Marble`: a service admitted by the coordinator.  `Parameters`
is a Go pointer, hence `Option`.  The `TLS` tag list is read by
`setTTLSConfig`; it is absent from the provided `manifest.go` (an older
revision) and is modelled from the spec (§3). -/
structure Marble where
  Package : String
  MaxActivations : Nat
  Parameters : Option Parameters
  TLS : List String
deriving DecidableEq

/-- Go zero value `manifest.Marble{}`. -/
def Marble.zero : Marble :=
  { Package := "", MaxActivations := 0, Parameters := none, TLS := [] }

/-- `manifest.Manifest`: the coordinator's policy.  The `TLS` map is modelled
from the spec (§3), it is missing from the provided older `manifest.go`. -/
structure Manifest where
  Packages : List (String × PackageProperties)
  Infrastructures : List (String × InfrastructureProperties)
  Marbles : List (String × Marble)
  Clients : List (String × Bytes)
  TLS : List (String × TLStag)
  Secrets : List (String × Secret)
  RecoveryKey : String
deriving DecidableEq

/-- Go zero value / empty manifest. -/
def Manifest.empty : Manifest :=
  { Packages := [], Infrastructures := [], Marbles := [], Clients := [],
    TLS := [], Secrets := [], RecoveryKey := "" }

/-- `Manifest.Check` from `manifest.go`: at least one package, at least one
marble, and every marble's package reference resolves. -/
def Manifest.Check (m : Manifest) : Except GoErr Unit :=
  if m.Packages.length ≤ 0 then .error (.templateError "no allowed packages defined")
  else if m.Marbles.length ≤ 0 then .error (.templateError "no allowed marbles defined")
  else if m.Marbles.all (fun kv => (alookup m.Packages kv.2.Package).isSome) then .ok ()
  else .error (.templateError "manifest does not contain marble package")

/-- `reservedSecrets` from `marbleapi.go`: the secrets issued at activation. -/
structure ReservedSecrets where
  RootCA : Secret
  MarbleCert : Secret
  SealKey : Secret
deriving DecidableEq

/-- `secretsWrapper` from `marbleapi.go`: the value a manifest template is
evaluated against. -/
structure SecretsWrapper where
  Marblerun : ReservedSecrets
  Secrets : List (String × Secret)
deriving DecidableEq

/-- One connection entry of the TTLS configuration.  In the source this is a
`map[string]interface{}` holding the string values `cacrt`, `clicrt`,
`clikey` and (for incoming entries only) the bool `clientAuth`; since the key
set is fixed, a structure with an optional `clientAuth` renders it. -/
structure ConnConf where
  cacrt : String
  clicrt : String
  clikey : String
  clientAuth : Option Bool
deriving DecidableEq

/-- JSON string escaping as done by `encoding/json` for the characters that
occur in this development (quote, backslash, newline). -/
def jsonEscape (s : String) : String :=
  String.join (s.toList.map (fun c =>
    if c = '"' then "\\\""
    else if c = '\\' then "\\\\"
    else if c = '\n' then "\\n"
    else String.mk [c]))

/-- A JSON string literal. -/
def jsonStr (s : String) : String := "\"" ++ jsonEscape s ++ "\""

/-- JSON rendering of one connection entry.  `encoding/json` sorts map keys;
the fixed keys in ascending order are `cacrt`, `clicrt`, `clientAuth`, `clikey`. -/
def marshalConnConf (c : ConnConf) : String :=
  "\x7b" ++ jsonStr "cacrt" ++ ":" ++ jsonStr c.cacrt
    ++ "," ++ jsonStr "clicrt" ++ ":" ++ jsonStr c.clicrt
    ++ (match c.clientAuth with
        | some b => "," ++ jsonStr "clientAuth" ++ ":" ++ (if b then "true" else "false")
        | none => "")
    ++ "," ++ jsonStr "clikey" ++ ":" ++ jsonStr c.clikey ++ "\x7d"

/-- Insert into a key-sorted association list (ascending key order). -/
def insertSortedByKey {α : Type} (kv : String × α) :
    List (String × α) → List (String × α)
  | [] => [kv]
  | h :: t => if kv.1 < h.1 then kv :: h :: t else h :: insertSortedByKey kv t

/-- Sort an association list by key, modelling `encoding/json`'s sorted
output of Go map keys. -/
def sortByKey {α : Type} (l : List (String × α)) : List (String × α) :=
  l.foldl (fun acc kv => insertSortedByKey kv acc) []

/-- JSON rendering of a map of connection entries with sorted keys. -/
def marshalConnMap (m : List (String × ConnConf)) : String :=
  "\x7b" ++ String.intercalate ","
      ((sortByKey m).map (fun kv => jsonStr kv.1 ++ ":" ++ marshalConnConf kv.2))
    ++ "\x7d"

/-- `json.Marshal` of the nested TTLS configuration
`tls → (Incoming, Outgoing) → address → connection entry` built by
`setTTLSConfig` ("Incoming" sorts before "Outgoing"). -/
def ttlsMarshal (incoming outgoing : List (String × ConnConf)) : String :=
  "\x7b" ++ jsonStr "tls" ++ ":\x7b"
    ++ jsonStr "Incoming" ++ ":" ++ marshalConnMap incoming ++ ","
    ++ jsonStr "Outgoing" ++ ":" ++ marshalConnMap outgoing
    ++ "\x7d\x7d"

/-- The opening brace character of a template action delimiter. -/
def openBraceChar : Char := '\x7b'

/-- The closing brace character of a template action delimiter. -/
def closeBraceChar : Char := '\x7d'

/-- Split a character list at every occurrence of the two-character
separator `[s1, s2]`, as `strings.Split` does for a two-byte separator
(structural recursion so that concrete runs reduce in the kernel). -/
def splitOnPair (s1 s2 : Char) : List Char → List (List Char)
  | [] => [[]]
  | [c] => [[c]]
  | a :: b :: rest =>
      if a = s1 ∧ b = s2 then [] :: splitOnPair s1 s2 rest
      else
        match splitOnPair s1 s2 (b :: rest) with
        | [] => [[a]]
        | h :: t => (a :: h) :: t

/-- Split a character list at every occurrence of a single character. -/
def splitOnChar (sep : Char) : List Char → List (List Char)
  | [] => [[]]
  | c :: rest =>
      if c = sep then [] :: splitOnChar sep rest
      else
        match splitOnChar sep rest with
        | [] => [[c]]
        | h :: t => (c :: h) :: t

/-- Resolve a template field path (the dot-separated accessor of a
`text/template` action) against the secrets wrapper.  Paths reach the
reserved secrets under `.Marblerun` and the user secrets under `.Secrets`;
indexing the user-secret map with a missing name yields the zero `Secret`,
as `text/template` does for Go maps.  Any other path is an execution error. -/
def resolveReserved (r : ReservedSecrets) : String → Option Secret
  | "RootCA" => some r.RootCA
  | "MarbleCert" => some r.MarbleCert
  | "SealKey" => some r.SealKey
  | _ => none

/-- Project a field of a `manifest.Secret`, tagged with its dynamic type. -/
def secretField (s : Secret) : String → Option SecretData
  | "Cert" => some (.certV s.Cert)
  | "Public" => some (.pubV s.Public)
  | "Private" => some (.privV s.Private)
  | _ => none

/-- Evaluate a field path such as `.Marblerun.MarbleCert.Cert` or
`.Secrets.foo.Private` to the value it denotes. -/
def evalPath (w : SecretsWrapper) (p : String) : Except GoErr SecretData :=
  match p.toList with
  | '.' :: tail =>
      match (splitOnChar '.' tail).map String.mk with
      | ["Marblerun", sub] =>
          match resolveReserved w.Marblerun sub with
          | some s => .ok (.secretV s)
          | none => .error (.templateError "field not found")
      | ["Marblerun", sub, f] =>
          match resolveReserved w.Marblerun sub with
          | some s =>
              match secretField s f with
              | some d => .ok d
              | none => .error (.templateError "field not found")
          | none => .error (.templateError "field not found")
      | ["Secrets", name] => .ok (.secretV (alookupD w.Secrets name Secret.zero))
      | ["Secrets", name, f] =>
          match secretField (alookupD w.Secrets name Secret.zero) f with
          | some d => .ok d
          | none => .error (.templateError "field not found")
      | _ => .error (.templateError "field not found")
  | _ => .error (.templateError "bad path")

/-- Evaluate the inside of one template action.  The manifest template
function map (`manifest.go`) provides exactly `pem`, `hex`, `raw` and
`base64`; an unknown function or malformed action is a template error, as in
`text/template`.  Bare field actions (printing a struct without an encoder)
are outside the modelled fragment and also map to an error. -/
def evalDirective (w : SecretsWrapper) (inner : List Char) : Except GoErr String :=
  match ((splitOnChar ' ' inner).map String.mk).filter (fun t => t ≠ "") with
  | ["pem", p] =>
      match evalPath w p with
      | .error e => .error e
      | .ok d => encodeSecretDataToPem d
  | ["hex", p] =>
      match evalPath w p with
      | .error e => .error e
      | .ok d => encodeSecretDataToHex d
  | ["raw", p] =>
      match evalPath w p with
      | .error e => .error e
      | .ok d => encodeSecretDataToRaw d
  | ["base64", p] =>
      match evalPath w p with
      | .error e => .error e
      | .ok d => encodeSecretDataToBase64 d
  | _ => .error (.templateError "function not defined")

/-- The piece-by-piece loop of `parseSecrets`: each piece follows one opening
delimiter and must contain a closing delimiter; the action before it is
evaluated, the text after it is copied (closing delimiters later in the same
piece are plain text, as in `text/template`). -/
def parseSecretsGo (w : SecretsWrapper) : String → List (List Char) → Except GoErr String
  | acc, [] => .ok acc
  | acc, piece :: rest =>
      match splitOnPair closeBraceChar closeBraceChar piece with
      | [] => .error (.templateError "unclosed action")
      | [_] => .error (.templateError "unclosed action")
      | inner :: t0 :: ts =>
          match evalDirective w inner with
          | .error e => .error e
          | .ok v =>
              parseSecretsGo w
                (acc ++ v ++ String.intercalate (String.mk [closeBraceChar, closeBraceChar])
                  ((t0 :: ts).map String.mk)) rest

/-- `parseSecrets` from `marbleapi.go`: parse `data` as a `text/template`
over the secrets wrapper (function map `manifestTemplateFuncMap`) and execute
it.  Text outside actions is copied verbatim; each action is evaluated by
`evalDirective`; an opening delimiter without a closing one is a parse
error.  Errors are returned as-is (no status code, no position attached). -/
def parseSecrets (data : String) (w : SecretsWrapper) : Except GoErr String :=
  match splitOnPair openBraceChar openBraceChar data.toList with
  | [] => .ok data
  | p0 :: rest => parseSecretsGo w (String.mk p0) rest

/-- Hex digit test for UUID parsing. -/
def isHexChar (c : Char) : Bool :=
  c.isDigit || ('a' ≤ c && c ≤ 'f') || ('A' ≤ c && c ≤ 'F')

/-- A parsed RFC-4122 UUID, carrying its canonical textual form. -/
structure UUID where
  str : String
deriving DecidableEq

/-- Models `uuid.Parse` of `github.com/google/uuid` on the canonical
`xxxxxxxx-xxxx-xxxx-xxxx-xxxxxxxxxxxx` form (the other accepted forms —
urn prefix, braces, bare 32 hex digits — are not exercised here): a string
of any other length is rejected with a plain (non-status) length error, a
36-character string with a malformed body with a format error. -/
def uuidParse (s : String) : Except GoErr UUID :=
  if s.toList.length = 36 then
    if (List.range 36).all (fun i =>
        if i = 8 ∨ i = 13 ∨ i = 18 ∨ i = 23 then s.toList.getD i ' ' = '-'
        else isHexChar (s.toList.getD i ' ')) then
      .ok { str := s }
    else .error (.uuidParseError "invalid UUID format")
  else .error (.uuidParseError "invalid UUID length")

/-- `uuid.MarshalBinary` (which never fails) rendered as a pure byte view. -/
def UUID.bytes (u : UUID) : Bytes := stringToBytes u.str

/-- Modelled from the spec: the sealed `Store` facade (§4.2) is an external
collaborator (its implementation is not among the provided sources).  Typed
reads return values or errors; since the sealed backing store performs I/O,
a read may fail transiently, so the private-key getter is indexed by a
per-name call counter held in the state.  The activation counters are the
mutable part: `acts` holds the set counters (a missing key is `NotSet`),
`actsReadErr` injects read failures, `putErr`/`incErr` inject write failures. -/
structure StoreState where
  certs : String → Except GoErr Certificate
  privks : String → Nat → Except GoErr PrivKey
  privkCalls : List (String × Nat)
  manifests : String → Except GoErr Manifest
  secretMap : Except GoErr (List (String × Secret))
  acts : List (String × Nat)
  actsReadErr : String → Bool
  putErr : Bool
  incErr : Bool

/-- `store.getCertificate`. -/
def StoreState.getCertificate (st : StoreState) (name : String) :
    Except GoErr Certificate :=
  st.certs name

/-- `store.getPrivK`: returns the stream element for the current call count
of `name` and advances the counter. -/
def StoreState.getPrivK (st : StoreState) (name : String) :
    Except GoErr PrivKey × StoreState :=
  (st.privks name (alookupD st.privkCalls name 0),
   { st with privkCalls := upsert st.privkCalls name (alookupD st.privkCalls name 0 + 1) })

/-- `store.getManifest`. -/
def StoreState.getManifest (st : StoreState) (name : String) :
    Except GoErr Manifest :=
  st.manifests name

/-- `store.getSecretMap`: the materialised shared secrets. -/
def StoreState.getSecretMap (st : StoreState) :
    Except GoErr (List (String × Secret)) :=
  st.secretMap

/-- `store.getActivations`: a set counter, a dedicated `NotSet` error for an
absent counter, or an injected read error. -/
def StoreState.getActivations (st : StoreState) (marbleType : String) :
    Except GoErr Nat :=
  if st.actsReadErr marbleType then .error (.storeError "activations read failed")
  else match alookup st.acts marbleType with
       | some n => .ok n
       | none => .error .storeValueUnset

/-- `store.putActivations`: write a counter; a failing store leaves the
state unchanged. -/
def StoreState.putActivations (st : StoreState) (marbleType : String) (v : Nat) :
    Except GoErr Unit × StoreState :=
  if st.putErr then (.error (.storeError "activations write failed"), st)
  else (.ok (), { st with acts := upsert st.acts marbleType v })

/-- Modelled from the spec: `store.incrementActivations` is "atomic +1"
(§4.2) with an absent counter standing for 0 (§3). -/
def StoreState.incrementActivations (st : StoreState) (marbleType : String) :
    Except GoErr Unit × StoreState :=
  if st.incErr then (.error (.storeError "activations increment failed"), st)
  else (.ok (), { st with acts := upsert st.acts marbleType (alookupD st.acts marbleType 0 + 1) })

/-- Modelled from the spec: the coordinator state machine (§4.8).  Only
`acceptingMarbles` admits activations. -/
inductive CoreState where
  | uninitialised
  | acceptingMarbles
  | recovery
deriving DecidableEq

/-- The fixed (per-request-immutable) part of the `Core`: its state gate, the
simulation flag (§4.3: in simulation mode the validator is never called) and
the quote validator `qv.Validate` rendered as a boolean predicate
(`true` = `Validate` returned nil). -/
structure Core where
  state : CoreState
  simulationMode : Bool
  qv : Bytes → Bytes → PackageProperties → InfrastructureProperties → Bool

/-- An ECDSA P-256 key pair as the embedded code uses it: the private scalar
bytes and the public key value passed to certificate creation. -/
structure ECKey where
  D : Bytes
  Pub : Bytes
deriving DecidableEq

/-- A parsed certificate signing request: the fields `generateCertFromCSR`
copies into the issued certificate. -/
structure CSR where
  DNSNames : List String
  IPAddresses : List String
deriving DecidableEq

/-- The `x509.Certificate` template assembled by `generateCertFromCSR`.
`NotAfter = NotBefore + MaxInt64` as in the source; key usage and constraint
fields are the constants set there. -/
structure CertTemplate where
  SerialNumber : Nat
  SubjectCommonName : String
  SubjectOrganization : List String
  NotBefore : Nat
  NotAfter : Nat
  KeyUsageDigitalSignature : Bool
  KeyUsageKeyAgreement : Bool
  ExtKeyUsageServerAuth : Bool
  ExtKeyUsageClientAuth : Bool
  BasicConstraintsValid : Bool
  IsCA : Bool
  DNSNames : List String
  IPAddresses : List String
deriving DecidableEq

/-- Oracle for the external cryptographic and environmental effects: key
generation and marshalling (`crypto/ecdsa`, `crypto/x509`), seal-key
derivation (`util.DeriveKey`), CSR parsing and signature checking, serial
generation, certificate creation/parsing, the wall clock, and the per-secret
generator used by the (spec-modelled) `generateSecrets`.  The embedded
control flow is translated from the source; only these leaf effects are
oracle-supplied. -/
structure Oracle where
  ecdsaGenerateKey : Except GoErr ECKey
  marshalPKCS8PrivateKey : ECKey → Except GoErr Bytes
  marshalPKIXPublicKey : ECKey → Except GoErr Bytes
  deriveKey : Bytes → Bytes → Nat → Except GoErr Bytes
  parseCertificateRequest : Bytes → Except GoErr CSR
  checkSignature : CSR → Bool
  generateSerial : Except GoErr Nat
  createCertificate : CertTemplate → Certificate → Bytes → PrivKey → Except GoErr Bytes
  parseCertificate : Bytes → Except GoErr Certificate
  now : Nat
  genSecret : String → Secret → UUID → Certificate → Option PrivKey → Except GoErr Secret

/-- `marble.MarbleEnvironmentIntermediateCA` from the ego library (spec §6). -/
def MarbleEnvironmentIntermediateCA : String := "EDG_CA"

/-- `marble.MarbleEnvironmentCertificateChain` from the ego library (spec §6). -/
def MarbleEnvironmentCertificateChain : String := "EDG_CERT_CHAIN"

/-- `marble.MarbleEnvironmentPrivateKey` from the ego library (spec §6). -/
def MarbleEnvironmentPrivateKey : String := "EDG_PRIVATE_KEY"

/-- Modelled from the spec: `Core.inSimulationMode` (the flag lives in the
core setup, not among the provided sources; §4.3). -/
def Core.inSimulationMode (c : Core) : Bool := c.simulationMode

/-- Modelled from the spec: `generateSecrets` (§4.4 step 5, not among the
provided sources) computes per-marble values for the non-shared user secrets
declared in the manifest, leaving shared secrets to the store; generation of
one secret (which may involve the intermediate certificate and private key)
is the oracle's `genSecret`. -/
def generateSecrets (o : Oracle) (specs : List (String × Secret))
    (marbleUUID : UUID) (intermediateCert : Certificate)
    (intermediatePrivK : Option PrivKey) :
    Except GoErr (List (String × Secret)) :=
  specs.foldlM (fun acc kv =>
    if kv.2.Shared then .ok acc
    else match o.genSecret kv.1 kv.2 marbleUUID intermediateCert intermediatePrivK with
      | .error e => .error e
      | .ok v => .ok (upsert acc kv.1 v)) []

/-- `generateCertFromCSR` from `marbleapi.go`: parse and verify the CSR
(`InvalidArgument` on failure), draw a serial (`Internal` on failure), load
the intermediate certificate and key (store errors returned as-is), assemble
the leaf template with the subject re-stamped to the marble UUID and the
intermediate issuer's organisation, and sign (`Internal` on failure). -/
def generateCertFromCSR (o : Oracle) (csrReq : Bytes) (pubk : Bytes)
    (marbleType : String) (marbleUUID : String) (st : StoreState) :
    Except GoErr Bytes × StoreState :=
  match o.parseCertificateRequest csrReq with
  | .error _ => (.error (.status .InvalidArgument "failed to parse CSR"), st)
  | .ok csr =>
  if ¬ o.checkSignature csr then
    (.error (.status .InvalidArgument "signature over CSR is invalid"), st)
  else
  match o.generateSerial with
  | .error _ => (.error (.status .Internal "failed to generate serial"), st)
  | .ok serialNumber =>
  match st.getCertificate "intermediate" with
  | .error e => (.error e, st)
  | .ok intermediateCert =>
  let pk := st.getPrivK "intermediate"
  match pk.1 with
  | .error e => (.error e, pk.2)
  | .ok intermediatePrivK =>
  let tmpl : CertTemplate :=
    { SerialNumber := serialNumber
      SubjectCommonName := marbleUUID
      SubjectOrganization := intermediateCert.issuerOrg
      NotBefore := o.now
      NotAfter := o.now + (2 ^ 63 - 1)
      KeyUsageDigitalSignature := true
      KeyUsageKeyAgreement := true
      ExtKeyUsageServerAuth := true
      ExtKeyUsageClientAuth := true
      BasicConstraintsValid := true
      IsCA := false
      DNSNames := csr.DNSNames
      IPAddresses := csr.IPAddresses }
  match o.createCertificate tmpl intermediateCert pubk intermediatePrivK with
  | .error _ => (.error (.status .Internal "failed to issue certificate"), pk.2)
  | .ok certRaw => (.ok certRaw, pk.2)

/-- `generateMarbleAuthSecrets` from `marbleapi.go`: fresh ECDSA key pair,
PKCS#8/PKIX encodings, seal key derived from the root private scalar and the
marble UUID, leaf certificate from the CSR, and the reserved-secrets bundle
(`RootCA` carries the intermediate certificate). -/
def generateMarbleAuthSecrets (o : Oracle) (csrReq : Bytes)
    (marbleType : String) (marbleUUID : UUID) (st : StoreState) :
    Except GoErr ReservedSecrets × StoreState :=
  match o.ecdsaGenerateKey with
  | .error e => (.error e, st)
  | .ok privk =>
  match o.marshalPKCS8PrivateKey privk with
  | .error e => (.error e, st)
  | .ok encodedPrivKey =>
  match o.marshalPKIXPublicKey privk with
  | .error e => (.error e, st)
  | .ok encodedPubKey =>
  let uuidBytes := marbleUUID.bytes
  let rk := st.getPrivK "root"
  match rk.1 with
  | .error e => (.error e, rk.2)
  | .ok rootPrivK =>
  match o.deriveKey rootPrivK.D uuidBytes 32 with
  | .error e => (.error e, rk.2)
  | .ok sealKey =>
  let gc := generateCertFromCSR o csrReq privk.Pub marbleType marbleUUID.str rk.2
  match gc.1 with
  | .error e => (.error e, gc.2)
  | .ok certRaw =>
  match o.parseCertificate certRaw with
  | .error e => (.error e, gc.2)
  | .ok marbleCert =>
  match gc.2.getCertificate "intermediate" with
  | .error e => (.error e, gc.2)
  | .ok intermediateCert =>
  (.ok { RootCA := { Secret.zero with Cert := intermediateCert },
         MarbleCert := { Secret.zero with
                         Cert := marbleCert,
                         Public := encodedPubKey,
                         Private := encodedPrivKey },
         SealKey := { Secret.zero with Public := sealKey, Private := sealKey } },
   gc.2)

/-- The infrastructure loop of `verifyManifestRequirement`: the first
infrastructure (in the iteration order of the `Infrastructures` map) for
which the quote validator returns nil. -/
def firstMatchingInfra (validate : InfrastructureProperties → Bool)
    (infras : List (String × InfrastructureProperties)) :
    Option (String × InfrastructureProperties) :=
  infras.find? (fun kv => validate kv.2)

/-- The quote-validation section of `verifyManifestRequirement`: skipped in
simulation mode; with no infrastructures the quote is validated once against
the zero infrastructure properties; otherwise the first validating
infrastructure is accepted, and `Unauthenticated` is returned when none
validates. -/
def validateQuote (c : Core) (certQuote : Bytes) (tlsCertRaw : Bytes)
    (pkg : PackageProperties)
    (infras : List (String × InfrastructureProperties)) : Except GoErr Unit :=
  if c.inSimulationMode then .ok ()
  else if infras.length = 0 then
    if c.qv certQuote tlsCertRaw pkg InfrastructureProperties.zero then .ok ()
    else .error (.status .Unauthenticated "invalid quote: validation failed")
  else
    match firstMatchingInfra (c.qv certQuote tlsCertRaw pkg) infras with
    | some _ => .ok ()
    | none => .error (.status .Unauthenticated "invalid quote")

/-- `verifyManifestRequirement` from `marbleapi.go`: load `main` and `update`
manifests, resolve marble and package (`InvalidArgument` / `Internal`),
overlay the updated `SecurityVersion`, validate the quote, then the
activation-budget section: read the counter (`NotSet` counts as 0, other
read errors are `Internal`), write it back (failure is `Internal`), and
reject with `ResourceExhausted` once a positive `MaxActivations` is reached. -/
def verifyManifestRequirement (c : Core) (tlsCert : Certificate)
    (certQuote : Bytes) (marbleType : String) (st : StoreState) :
    Except GoErr Unit × StoreState :=
  match st.getManifest "main" with
  | .error e => (.error e, st)
  | .ok mainManifest =>
  match st.getManifest "update" with
  | .error e => (.error e, st)
  | .ok updateManifest =>
  match alookup mainManifest.Marbles marbleType with
  | none => (.error (.status .InvalidArgument "unknown marble type requested"), st)
  | some marble =>
  match alookup mainManifest.Packages marble.Package with
  | none => (.error (.status .Internal "undefined package"), st)
  | some pkg0 =>
  let pkg := match alookup updateManifest.Packages marble.Package with
             | some updpkg => { pkg0 with SecurityVersion := updpkg.SecurityVersion }
             | none => pkg0
  match validateQuote c certQuote tlsCert.raw pkg mainManifest.Infrastructures with
  | .error e => (.error e, st)
  | .ok _ =>
  match (match st.getActivations marbleType with
         | .ok n => Except.ok n
         | .error e =>
             if IsStoreValueUnsetError e then Except.ok 0
             else .error (GoErr.status .Internal
                    "could not retrieve activations for marble type")) with
  | .error e => (.error e, st)
  | .ok activations =>
  let pa := st.putActivations marbleType activations
  match pa.1 with
  | .error _ =>
      (.error (.status .Internal "could not set activations marble type"), pa.2)
  | .ok _ =>
  if 0 < marble.MaxActivations ∧ marble.MaxActivations ≤ activations then
    (.error (.status .ResourceExhausted "reached max activations count for marble type"), pa.2)
  else (.ok (), pa.2)

/-- The connection entry written for every outgoing TLS address: the
intermediate CA and the marble's own leaf credentials. -/
def outgoingConnConf (stringCaCert stringClientCert stringClientKey : String) :
    ConnConf :=
  { cacrt := stringCaCert, clicrt := stringClientCert,
    clikey := stringClientKey, clientAuth := none }

/-- The connection entry written for an incoming TLS port (`setTTLSConfig`):
if the entry names a user certificate, that secret's certificate and private
key are PEM-encoded (a name missing from the user-secret map yields the zero
`Secret`, i.e. empty certificate and key bytes) and `clientAuth` is the
negation of `DisableClientAuth`; otherwise the marble's own credentials are
used and `clientAuth` is true. -/
def incomingConnConf (stringCaCert stringClientCert stringClientKey : String)
    (userSecrets : List (String × Secret)) (entry : TLSTagEntry) : ConnConf :=
  if entry.Cert ≠ "" then
    { cacrt := stringCaCert,
      clicrt := pemEncodeToMemory "CERTIFICATE"
                  (alookupD userSecrets entry.Cert Secret.zero).Cert.raw,
      clikey := pemEncodeToMemory "PRIVATE KEY"
                  (alookupD userSecrets entry.Cert Secret.zero).Private,
      clientAuth := some (!entry.DisableClientAuth) }
  else
    { cacrt := stringCaCert, clicrt := stringClientCert,
      clikey := stringClientKey, clientAuth := some true }

/-- The tag loop of `setTTLSConfig`: for every TLS tag of the marble, write
the outgoing entries (keyed `Addr:Port`) and the incoming entries (keyed
`*:Port`) into the two connection maps.  Returns `(Outgoing, Incoming)`. -/
def buildTTLSConf (stringCaCert stringClientCert stringClientKey : String)
    (userSecrets : List (String × Secret)) (manTLS : List (String × TLStag))
    (tags : List String) :
    List (String × ConnConf) × List (String × ConnConf) :=
  tags.foldl (fun acc tag =>
    let t := alookupD manTLS tag TLStag.zero
    let outg := t.Outgoing.foldl (fun m e =>
      upsert m (e.Addr ++ ":" ++ e.Port)
        (outgoingConnConf stringCaCert stringClientCert stringClientKey)) acc.1
    let inc := t.Incoming.foldl (fun m e =>
      upsert m ("*:" ++ e.Port)
        (incomingConnConf stringCaCert stringClientCert stringClientKey userSecrets e)) acc.2
    (outg, inc)) ([], [])

/-- `setTTLSConfig` from `marbleapi.go`: a no-op for a marble without TLS
tags; otherwise PEM-encode the intermediate CA and the marble's leaf
credentials, build the connection maps over the marble's tags against the
main manifest's TLS map, and write the JSON rendering into
`Env["MARBLE_TTLS_CONFIG"]` of the marble's parameters (mutating
`marble.Parameters`, rendered here by returning the updated parameters). -/
def setTTLSConfig (marble : Marble) (params : Parameters)
    (specialSecrets : ReservedSecrets) (userSecrets : List (String × Secret))
    (st : StoreState) : Except GoErr Parameters :=
  if marble.TLS.length = 0 then .ok params
  else
  match st.getCertificate "intermediate" with
  | .error e => .error e
  | .ok intermediateCert =>
  let stringCaCert := pemEncodeToMemory "CERTIFICATE" intermediateCert.raw
  let stringClientCert :=
    pemEncodeToMemory "CERTIFICATE" specialSecrets.MarbleCert.Cert.raw
  let stringClientKey :=
    pemEncodeToMemory "PRIVATE KEY" specialSecrets.MarbleCert.Private
  match st.getManifest "main" with
  | .error e => .error e
  | .ok man =>
  let conf := buildTTLSConf stringCaCert stringClientCert stringClientKey
                userSecrets man.TLS marble.TLS
  .ok { params with
        Env := upsert params.Env "MARBLE_TTLS_CONFIG" (ttlsMarshal conf.2 conf.1) }

/-- The body of the per-map loops of `customizeParameters`, with the output
map under construction as explicit accumulator. -/
def templateMapGo (w : SecretsWrapper) :
    List (String × String) → List (String × String) →
    Except GoErr (List (String × String))
  | acc, [] => .ok acc
  | acc, kv :: t =>
      match parseSecrets kv.2 w with
      | .error e => .error e
      | .ok v => templateMapGo w (upsert acc kv.1 v) t

/-- The per-map loop of `customizeParameters`: run every value through
`parseSecrets` and write it into a fresh map, aborting on the first error
(returned as-is, without the entry's key attached). -/
def templateMap (l : List (String × String)) (w : SecretsWrapper) :
    Except GoErr (List (String × String)) :=
  templateMapGo w [] l

/-- `customizeParameters` from `marbleapi.go`: template-expand all file and
environment values over the wrapped secrets, then unconditionally set the
three reserved environment variables from the reserved secrets (intermediate
CA PEM, leaf-then-intermediate chain, leaf private-key PEM).  `Argv` passes
through verbatim. -/
def customizeParameters (params : Parameters)
    (specialSecrets : ReservedSecrets) (userSecrets : List (String × Secret)) :
    Except GoErr Parameters :=
  let secretsWrapped : SecretsWrapper :=
    { Marblerun := specialSecrets, Secrets := userSecrets }
  match templateMap params.Files secretsWrapped with
  | .error e => .error e
  | .ok files =>
  match templateMap params.Env secretsWrapped with
  | .error e => .error e
  | .ok env =>
  match encodeSecretDataToPem (.certV specialSecrets.RootCA.Cert) with
  | .error e => .error e
  | .ok intermediateCaPem =>
  match encodeSecretDataToPem (.certV specialSecrets.MarbleCert.Cert) with
  | .error e => .error e
  | .ok marbleCertPem =>
  match encodeSecretDataToPem (.privV specialSecrets.MarbleCert.Private) with
  | .error e => .error e
  | .ok encodedPrivKey =>
  .ok { Argv := params.Argv,
        Files := files,
        Env := upsert (upsert (upsert env
                 MarbleEnvironmentIntermediateCA intermediateCaPem)
                 MarbleEnvironmentCertificateChain (marbleCertPem ++ intermediateCaPem))
                 MarbleEnvironmentPrivateKey encodedPrivKey }

/-- `rpc.ActivationReq`. -/
structure ActivationReq where
  MarbleType : String
  CSR : Bytes
  UUID : String
  Quote : Bytes
deriving DecidableEq

/-- `rpc.ActivationResp`. -/
structure ActivationResp where
  Parameters : Parameters
deriving DecidableEq

/-- `Core.Activate` from `marbleapi.go`.  The serialising lock and logging
are not modelled; `tlsCert?` is the peer certificate extracted from the
transport context (`getClientTLSCert`).  The pipeline: state gate, peer
certificate, `verifyManifestRequirement`, UUID parse (the raw parse error is
returned), auth-secret generation, intermediate certificate read, the
intermediate private-key read — whose failure the source only logs, keeping
a nil key and continuing —, main manifest, per-marble secrets, shared-secret
merge, TTLS config, parameter customisation, and the final counter
increment.  Returns the result together with the final store state. -/
def Activate (c : Core) (o : Oracle) (tlsCert? : Option Certificate)
    (req : ActivationReq) (st : StoreState) :
    Except GoErr ActivationResp × StoreState :=
  if c.state ≠ CoreState.acceptingMarbles then
    (.error (.status .FailedPrecondition "cannot accept marbles in current state"), st)
  else
  match tlsCert? with
  | none => (.error (.status .Unauthenticated "couldn't get marble TLS certificate"), st)
  | some tlsCert =>
  let vr := verifyManifestRequirement c tlsCert req.Quote req.MarbleType st
  match vr.1 with
  | .error e => (.error e, vr.2)
  | .ok _ =>
  match uuidParse req.UUID with
  | .error e => (.error e, vr.2)
  | .ok marbleUUID =>
  let ga := generateMarbleAuthSecrets o req.CSR req.MarbleType marbleUUID vr.2
  match ga.1 with
  | .error e => (.error e, ga.2)
  | .ok authSecrets =>
  match ga.2.getCertificate "intermediate" with
  | .error e => (.error e, ga.2)
  | .ok intermediateCert =>
  let pk := ga.2.getPrivK "intermediate"
  -- source: a failed read is only logged here; no return, the nil key flows on
  let intermediatePrivK : Option PrivKey := pk.1.toOption
  match pk.2.getManifest "main" with
  | .error e => (.error e, pk.2)
  | .ok mainManifest =>
  match generateSecrets o mainManifest.Secrets marbleUUID intermediateCert
          intermediatePrivK with
  | .error e => (.error e, pk.2)
  | .ok uniqueSecrets =>
  match pk.2.getSecretMap with
  | .error e => (.error e, pk.2)
  | .ok sharedSecrets =>
  let secrets := sharedSecrets.foldl (fun acc kv => upsert acc kv.1 kv.2) uniqueSecrets
  let marble0 := alookupD mainManifest.Marbles req.MarbleType Marble.zero
  let marble := if marble0.Parameters.isNone
                then { marble0 with Parameters := some Parameters.empty }
                else marble0
  let params0 := marble.Parameters.getD Parameters.empty
  match setTTLSConfig marble params0 authSecrets secrets pk.2 with
  | .error e => (.error e, pk.2)
  | .ok params1 =>
  match customizeParameters params1 authSecrets secrets with
  | .error e => (.error e, pk.2)
  | .ok params =>
  let resp : ActivationResp := { Parameters := params }
  let ia := pk.2.incrementActivations req.MarbleType
  match ia.1 with
  | .error e => (.error e, ia.2)
  | .ok _ => (.ok resp, ia.2)

/-- Oracle under which every cryptographic operation succeeds with small
fixed values (used for concrete runs). -/
def okOracle : Oracle :=
  { ecdsaGenerateKey := .ok { D := [3], Pub := [9] },
    marshalPKCS8PrivateKey := fun _ => .ok [8],
    marshalPKIXPublicKey := fun _ => .ok [9],
    deriveKey := fun _ _ _ => .ok [66],
    parseCertificateRequest := fun _ => .ok { DNSNames := [], IPAddresses := [] },
    checkSignature := fun _ => true,
    generateSerial := .ok 7,
    createCertificate := fun _ _ _ _ => .ok [7],
    parseCertificate := fun b => .ok { raw := b, issuerOrg := [] },
    now := 0,
    genSecret := fun _ s _ _ _ => .ok s }

/-- The intermediate CA certificate of the concrete runs. -/
def baseIntermediateCert : Certificate := { raw := [5], issuerOrg := ["Org"] }

/-- A marble `M` with no TLS tags and unlimited activations. -/
def baseMarble : Marble :=
  { Package := "P", MaxActivations := 0, Parameters := some Parameters.empty,
    TLS := [] }

/-- A minimal well-formed main manifest with one package and one marble. -/
def baseManifest : Manifest :=
  { Packages := [("P", { SecurityVersion := 3 })],
    Infrastructures := [], Marbles := [("M", baseMarble)], Clients := [],
    TLS := [], Secrets := [], RecoveryKey := "" }

/-- A store holding the base manifest, an empty update manifest, the
intermediate certificate and both private keys; no counters set, no
injected failures. -/
def baseStore : StoreState :=
  { certs := fun n => if n = "intermediate" then .ok baseIntermediateCert
             else .error (.storeError "certificate not set"),
    privks := fun n _ => if n = "root" then .ok { D := [1] }
              else if n = "intermediate" then .ok { D := [2] }
              else .error (.storeError "key not set"),
    privkCalls := [],
    manifests := fun n => if n = "main" then .ok baseManifest
                 else if n = "update" then .ok Manifest.empty
                 else .error (.storeError "manifest not set"),
    secretMap := .ok [],
    acts := [],
    actsReadErr := fun _ => false,
    putErr := false,
    incErr := false }

/-- A coordinator accepting marbles, in simulation mode. -/
def baseCore : Core :=
  { state := .acceptingMarbles, simulationMode := true,
    qv := fun _ _ _ _ => true }

/-- A well-formed activation request for marble type `M`. -/
def baseReq : ActivationReq :=
  { MarbleType := "M", CSR := [], Quote := [],
    UUID := "00000000-0000-0000-0000-000000000001" }

/-- The peer TLS certificate of the concrete runs. -/
def baseTlsCert : Certificate := { raw := [4], issuerOrg := [] }

/-- A store whose intermediate-private-key read succeeds on the first call
(the one inside `generateMarbleAuthSecrets`' certificate issuance) and fails
transiently on every later call — in particular on the direct read in
`Activate` whose error the source only logs. -/
def c1store : StoreState :=
  { baseStore with
    privks := fun n i =>
      if n = "intermediate" then
        (if i = 0 then .ok { D := [2] }
         else .error (.storeError "transient seal failure"))
      else if n = "root" then .ok { D := [1] }
      else .error (.storeError "key not set") }

/-- The request of the malformed-UUID run. -/
def c4req : ActivationReq := { baseReq with UUID := "" }

/-- Two distinct infrastructure property values. -/
def c5infraA : InfrastructureProperties := { props := 1 }

/-- Two distinct infrastructure property values. -/
def c5infraB : InfrastructureProperties := { props := 2 }

/-- One iteration order of a two-entry `Infrastructures` map. -/
def c5infras1 : List (String × InfrastructureProperties) :=
  [("A", c5infraA), ("B", c5infraB)]

/-- The other iteration order of the same map. -/
def c5infras2 : List (String × InfrastructureProperties) :=
  [("B", c5infraB), ("A", c5infraA)]

/-- A marble with one TLS tag. -/
def c6marble : Marble := { baseMarble with TLS := ["t"] }

/-- An outgoing TLS entry whose port string contains a template action (a
possibility the manifest schema does not exclude: ports and addresses are
free-form strings). -/
def c6tagEntryOut : TLSTagEntry :=
  { Port := "\x7b\x7b raw .Marblerun.SealKey.Public \x7d\x7d",
    Addr := "svc", Cert := "", DisableClientAuth := false }

/-- Main manifest carrying the TLS tag with the template-bearing port. -/
def c6manifest : Manifest :=
  { baseManifest with
    Marbles := [("M", c6marble)],
    TLS := [("t", { Outgoing := [c6tagEntryOut], Incoming := [] })] }

/-- Base store with the c6 manifest. -/
def c6store : StoreState :=
  { baseStore with
    manifests := fun n => if n = "main" then .ok c6manifest
                 else if n = "update" then .ok Manifest.empty
                 else .error (.storeError "manifest not set") }

/-- The reserved secrets `generateMarbleAuthSecrets` produces under
`okOracle` (checked against the run inside the c6 counterexample). -/
def c6auth : ReservedSecrets :=
  { RootCA := { Secret.zero with Cert := baseIntermediateCert },
    MarbleCert := { Secret.zero with
                    Cert := { raw := [7], issuerOrg := [] },
                    Public := [9],
                    Private := [8] },
    SealKey := { Secret.zero with Public := [66], Private := [66] } }

/-- The `MARBLE_TTLS_CONFIG` entry of the response of a run, if any. -/
def respTTLSValue (r : Except GoErr ActivationResp × StoreState) : Option String :=
  match r.1 with
  | .ok resp => alookup resp.Parameters.Env "MARBLE_TTLS_CONFIG"
  | .error _ => none

/-- The `MARBLE_TTLS_CONFIG` value the c6 activation returns. -/
def c6respVal : Option String :=
  respTTLSValue (Activate baseCore okOracle (some baseTlsCert) baseReq c6store)

/-- The `MARBLE_TTLS_CONFIG` value the TTLS assembler itself produces in the
c6 run (the JSON before the templater touches it). -/
def c6asmVal : Option String :=
  match setTTLSConfig c6marble Parameters.empty c6auth [] c6store with
  | .ok p => alookup p.Env "MARBLE_TTLS_CONFIG"
  | .error _ => none

/-- A marble without TLS tags whose manifest parameters already carry a
`MARBLE_TTLS_CONFIG` environment entry. -/
def c9marble : Marble :=
  { baseMarble with
    Parameters := some { Parameters.empty with Env := [("MARBLE_TTLS_CONFIG", "x")] } }

/-- Main manifest of the c9 run. -/
def c9manifest : Manifest := { baseManifest with Marbles := [("M", c9marble)] }

/-- Base store with the c9 manifest. -/
def c9store : StoreState :=
  { baseStore with
    manifests := fun n => if n = "main" then .ok c9manifest
                 else if n = "update" then .ok Manifest.empty
                 else .error (.storeError "manifest not set") }

/-- The `MARBLE_TTLS_CONFIG` value the c9 activation returns. -/
def c9respVal : Option String :=
  respTTLSValue (Activate baseCore okOracle (some baseTlsCert) baseReq c9store)

/-- A marble with an activation budget of 2. -/
def c2marble : Marble := { baseMarble with MaxActivations := 2 }

/-- Main manifest of the budget runs. -/
def c2manifest : Manifest := { baseManifest with Marbles := [("M", c2marble)] }

/-- Store with the budget manifest and the counter of `M` already at 2. -/
def c2store : StoreState :=
  { baseStore with
    manifests := fun n => if n = "main" then .ok c2manifest
                 else if n = "update" then .ok Manifest.empty
                 else .error (.storeError "manifest not set"),
    acts := [("M", 2)] }

/-- The same store with the counter of `M` not set. -/
def c2storeUnset : StoreState := { c2store with acts := [] }

/-- An incoming TLS entry naming a user certificate that will be missing
from the user-secret map. -/
def c10entry : TLSTagEntry :=
  { Port := "443", Addr := "", Cert := "userCert", DisableClientAuth := true }

/-- Main manifest whose TLS tag `t` has that single incoming entry. -/
def c10manifest : Manifest :=
  { baseManifest with
    Marbles := [("M", c6marble)],
    TLS := [("t", { Outgoing := [], Incoming := [c10entry] })] }

/-- Base store with the c10 manifest. -/
def c10store : StoreState :=
  { baseStore with
    manifests := fun n => if n = "main" then .ok c10manifest
                 else if n = "update" then .ok Manifest.empty
                 else .error (.storeError "manifest not set") }

theorem alookup_upsert_self {α : Type} (l : List (String × α)) (k : String) (v : α) :
    alookup (upsert l k v) k = some v := by
  induction l with
  | nil => simp [upsert, alookup]
  | cons kv t ih =>
      by_cases h : kv.1 = k
      · simp [upsert, h, alookup]
      · simp [upsert, h, alookup, ih]

theorem alookup_upsert_ne {α : Type} (l : List (String × α)) (k k' : String) (v : α)
    (h : k' ≠ k) : alookup (upsert l k v) k' = alookup l k' := by
  have hkk : k ≠ k' := Ne.symm h
  induction l with
  | nil => simp [upsert, alookup, hkk]
  | cons kv t ih =>
      by_cases hk : kv.1 = k
      · have hkv : kv.1 ≠ k' := by rw [hk]; exact hkk
        simp [upsert, hk, alookup, hkv, hkk]
      · by_cases hk' : kv.1 = k'
        · simp [upsert, hk, alookup, hk', h]
        · simp [upsert, hk, alookup, hk', ih]

theorem upsert_of_alookup_eq {α : Type} (l : List (String × α)) (k : String) (v : α)
    (h : alookup l k = some v) : upsert l k v = l := by
  induction l with
  | nil => simp [alookup] at h
  | cons kv t ih =>
      by_cases hk : kv.1 = k
      · simp only [alookup, if_pos hk] at h
        simp only [upsert, if_pos hk]
        injection h with h2
        rw [← hk, ← h2]
      · simp only [alookup, if_neg hk] at h
        simp only [upsert, if_neg hk]
        rw [ih h]

theorem alookupD_upsert_self {α : Type} (l : List (String × α)) (k : String) (v d : α) :
    alookupD (upsert l k v) k d = v := by
  simp [alookupD, alookup_upsert_self]

theorem not_mem_keys_of_alookup_none {α : Type} {l : List (String × α)} {k : String}
    (h : alookup l k = none) : k ∉ l.map Prod.fst := by
  induction l with
  | nil => simp
  | cons kv t ih =>
      by_cases hk : kv.1 = k
      · simp only [alookup, if_pos hk] at h
        simp at h
      · simp only [alookup, if_neg hk] at h
        simp only [List.map_cons, List.mem_cons]
        intro hm
        rcases hm with hm | hm
        · exact hk hm.symm
        · exact ih h hm

theorem map_fst_upsert_none {α : Type} {l : List (String × α)} {k : String} (v : α)
    (h : alookup l k = none) :
    (upsert l k v).map Prod.fst = l.map Prod.fst ++ [k] := by
  induction l with
  | nil => simp [upsert]
  | cons kv t ih =>
      by_cases hk : kv.1 = k
      · simp only [alookup, if_pos hk] at h
        simp at h
      · simp only [alookup, if_neg hk] at h
        simp [upsert, hk, ih h]

theorem map_fst_upsert_some {α : Type} {l : List (String × α)} {k : String} {w : α} (v : α)
    (h : alookup l k = some w) :
    (upsert l k v).map Prod.fst = l.map Prod.fst := by
  induction l with
  | nil => simp [alookup] at h
  | cons kv t ih =>
      by_cases hk : kv.1 = k
      · simp only [upsert, if_pos hk, List.map_cons]
        rw [← hk]
      · simp only [alookup, if_neg hk] at h
        simp [upsert, hk, ih h]

theorem keysNodup_upsert {α : Type} {l : List (String × α)} (k : String) (v : α)
    (h : keysNodup l) : keysNodup (upsert l k v) := by
  unfold keysNodup at h ⊢
  cases hl : alookup l k with
  | some w => rw [map_fst_upsert_some v hl]; exact h
  | none =>
      rw [map_fst_upsert_none v hl]
      refine List.Nodup.append h (List.nodup_singleton k) ?_
      intro a ha hb
      simp at hb
      subst hb
      exact not_mem_keys_of_alookup_none hl ha

theorem alookup_mem {α : Type} {l : List (String × α)} {k : String} {v : α}
    (h : alookup l k = some v) : (k, v) ∈ l := by
  induction l with
  | nil => simp [alookup] at h
  | cons kv t ih =>
      rcases kv with ⟨a, b⟩
      by_cases hk : a = k
      · simp only [alookup, if_pos hk] at h
        injection h with h2
        subst hk
        subst h2
        exact List.mem_cons_self _ _
      · simp only [alookup] at h
        rw [if_neg hk] at h
        exact List.mem_cons_of_mem _ (ih h)

theorem templateMapGo_error (w : SecretsWrapper) :
    ∀ (l acc : List (String × String)) (e : GoErr),
    templateMapGo w acc l = .error e →
    ∃ kv, kv ∈ l ∧ parseSecrets kv.2 w = .error e := by
  intro l
  induction l with
  | nil => intro acc e h; simp [templateMapGo] at h
  | cons x t ih =>
      intro acc e h
      cases hx : parseSecrets x.2 w with
      | error e' =>
          simp only [templateMapGo, hx] at h
          injection h with h
          exact ⟨x, List.mem_cons_self _ _, by rw [hx, h]⟩
      | ok v =>
          simp only [templateMapGo, hx] at h
          rcases ih _ e h with ⟨kv, hm, hp⟩
          exact ⟨kv, List.mem_cons_of_mem _ hm, hp⟩

theorem templateMapGo_alookup_none (w : SecretsWrapper) (k : String) :
    ∀ (l acc l' : List (String × String)),
    templateMapGo w acc l = .ok l' → alookup l k = none →
    alookup l' k = alookup acc k := by
  intro l
  induction l with
  | nil =>
      intro acc l' h hn
      simp only [templateMapGo] at h
      injection h with h
      rw [← h]
  | cons x t ih =>
      intro acc l' h hn
      by_cases hk : x.1 = k
      · simp [alookup, hk] at hn
      · simp only [alookup, if_neg hk] at hn
        cases hx : parseSecrets x.2 w with
        | error e =>
            simp only [templateMapGo, hx] at h
            exact Except.noConfusion h
        | ok v =>
            simp only [templateMapGo, hx] at h
            rw [ih _ _ h hn]
            exact alookup_upsert_ne acc x.1 k v (Ne.symm hk)

theorem templateMapGo_alookup_some (w : SecretsWrapper) (k : String) :
    ∀ (l acc l' : List (String × String)) (v : String),
    templateMapGo w acc l = .ok l' → keysNodup l → alookup l k = some v →
    ∃ v', parseSecrets v w = .ok v' ∧ alookup l' k = some v' := by
  intro l
  induction l with
  | nil => intro acc l' v h hnd hs; simp [alookup] at hs
  | cons x t ih =>
      intro acc l' v h hnd hs
      by_cases hk : x.1 = k
      · simp only [alookup, if_pos hk] at hs
        injection hs with hs
        cases hx : parseSecrets x.2 w with
        | error e =>
            simp only [templateMapGo, hx] at h
            exact Except.noConfusion h
        | ok v' =>
            simp only [templateMapGo, hx] at h
            refine ⟨v', by rw [← hs]; exact hx, ?_⟩
            have ht : alookup t k = none := by
              cases hl : alookup t k with
              | none => rfl
              | some u =>
                  exfalso
                  have hmem := alookup_mem hl
                  unfold keysNodup at hnd
                  simp only [List.map_cons, List.nodup_cons] at hnd
                  exact hnd.1 (by
                    rw [hk]
                    exact List.mem_map.2 ⟨(k, u), hmem, rfl⟩)
            rw [templateMapGo_alookup_none w k t _ _ h ht, hk]
            exact alookup_upsert_self acc k v'
      · simp only [alookup, if_neg hk] at hs
        cases hx : parseSecrets x.2 w with
        | error e =>
            simp only [templateMapGo, hx] at h
            exact Except.noConfusion h
        | ok v' =>
            simp only [templateMapGo, hx] at h
            have hnd' : keysNodup t := by
              unfold keysNodup at hnd ⊢
              simp only [List.map_cons, List.nodup_cons] at hnd
              exact hnd.2
            exact ih _ _ _ h hnd' hs

theorem templateMap_error {l : List (String × String)} {w : SecretsWrapper}
    {e : GoErr} (h : templateMap l w = .error e) :
    ∃ kv, kv ∈ l ∧ parseSecrets kv.2 w = .error e :=
  templateMapGo_error w l [] e h

theorem templateMap_alookup_none {l l' : List (String × String)}
    {w : SecretsWrapper} {k : String} (h : templateMap l w = .ok l')
    (hn : alookup l k = none) : alookup l' k = none := by
  rw [templateMapGo_alookup_none w k l [] l' h hn]
  rfl

theorem templateMap_alookup_some {l l' : List (String × String)}
    {w : SecretsWrapper} {k v : String} (h : templateMap l w = .ok l')
    (hnd : keysNodup l) (hs : alookup l k = some v) :
    ∃ v', parseSecrets v w = .ok v' ∧ alookup l' k = some v' :=
  templateMapGo_alookup_some w k l [] l' v h hnd hs

theorem getPrivK_acts (st : StoreState) (n : String) :
    ((st.getPrivK n).2).acts = st.acts := rfl

theorem generateCertFromCSR_acts (o : Oracle) (csrReq pubk : Bytes)
    (mt mu : String) (st : StoreState) :
    ((generateCertFromCSR o csrReq pubk mt mu st).2).acts = st.acts := by
  unfold generateCertFromCSR
  repeat' split
  all_goals try rfl
  all_goals simp only [StoreState.getPrivK]
  all_goals repeat' split
  all_goals rfl

theorem generateMarbleAuthSecrets_acts (o : Oracle) (csrReq : Bytes)
    (mt : String) (mu : UUID) (st : StoreState) :
    ((generateMarbleAuthSecrets o csrReq mt mu st).2).acts = st.acts := by
  simp only [generateMarbleAuthSecrets]
  repeat' split
  all_goals simp [StoreState.getPrivK, generateCertFromCSR_acts]

theorem budgetRead_eq (st : StoreState) (mt : String) (n : Nat)
    (h : (match st.getActivations mt with
          | Except.ok k => Except.ok k
          | Except.error e =>
              if IsStoreValueUnsetError e = true then Except.ok 0
              else Except.error (GoErr.status .Internal
                     "could not retrieve activations for marble type")) = Except.ok n) :
    n = (alookup st.acts mt).getD 0 := by
  unfold StoreState.getActivations at h
  by_cases hre : st.actsReadErr mt = true
  · rw [if_pos hre] at h
    simp [IsStoreValueUnsetError] at h
  · rw [if_neg hre] at h
    cases hl : alookup st.acts mt with
    | some k =>
        rw [hl] at h
        simp at h
        simp [hl, ← h]
    | none =>
        rw [hl] at h
        simp [IsStoreValueUnsetError] at h
        simp [hl, ← h]

theorem verifyManifestRequirement_acts (c : Core) (tc : Certificate) (q : Bytes)
    (mt : String) (st : StoreState) :
    alookupD ((verifyManifestRequirement c tc q mt st).2).acts mt 0 =
      alookupD st.acts mt 0 := by
  unfold verifyManifestRequirement
  simp only [StoreState.putActivations]
  repeat' split
  all_goals try rfl
  all_goals simp only [alookupD, alookupD_upsert_self, alookup_upsert_self,
    Option.getD_some]
  all_goals exact budgetRead_eq st mt _ (by assumption)

/-- C2: In `verifyManifestRequirement` the activation counter is read with an
unset value treated as 0 and written back as an idempotent seed, and for a
marble type with `MaxActivations = k > 0`: (i) an activation attempted when
the counter is already at least `k` fails with `ResourceExhausted` and
leaves the store — in particular the counter — unchanged (the seed rewrites
the value the counter already had); (ii) when the counter is unset, it is
treated as 0: the check passes and the seed persists the counter as 0. -/
theorem c2_max_activations (c : Core) (tc : Certificate) (q : Bytes)
    (mt : String) (st : StoreState) (mm um : Manifest) (marble : Marble)
    (pkg : PackageProperties)
    (hmain : st.getManifest "main" = .ok mm)
    (hupd : st.getManifest "update" = .ok um)
    (hmar : alookup mm.Marbles mt = some marble)
    (hpkg : alookup mm.Packages marble.Package = some pkg)
    (hsim : c.simulationMode = true)
    (hre : st.actsReadErr mt = false)
    (hput : st.putErr = false)
    (hk : 0 < marble.MaxActivations) :
    (marble.MaxActivations ≤ alookupD st.acts mt 0 →
      verifyManifestRequirement c tc q mt st =
        (.error (.status .ResourceExhausted
           "reached max activations count for marble type"), st))
    ∧ (alookup st.acts mt = none →
      verifyManifestRequirement c tc q mt st =
        (.ok (), { st with acts := upsert st.acts mt 0 })) := by
  constructor
  · intro hge
    cases hl : alookup st.acts mt with
    | some n =>
        have hge' : marble.MaxActivations ≤ n := by simpa [alookupD, hl] using hge
        have hseed : upsert st.acts mt n = st.acts := upsert_of_alookup_eq st.acts mt n hl
        unfold verifyManifestRequirement validateQuote Core.inSimulationMode
          StoreState.getActivations StoreState.putActivations
        simp [hmain, hupd, hmar, hpkg, hsim, hre, hl, hput, alookupD, hk, hge', hseed]
        rw [← hput]
    | none =>
        have hge' : marble.MaxActivations ≤ 0 := by simpa [alookupD, hl] using hge
        exact absurd (Nat.lt_of_lt_of_le hk hge') (by simp)
  · intro hl
    have hlt : ¬ (0 < marble.MaxActivations ∧ marble.MaxActivations ≤ 0) := by
      intro hcon
      exact absurd (Nat.lt_of_lt_of_le hcon.1 hcon.2) (by simp)
    unfold verifyManifestRequirement validateQuote Core.inSimulationMode
      StoreState.getActivations StoreState.putActivations
    simp [hmain, hupd, hmar, hpkg, hsim, hre, hl, hput, hlt, IsStoreValueUnsetError]
    omega

theorem c2_max_activations_witness :
    (verifyManifestRequirement baseCore baseTlsCert [] "M" c2store =
      (.error (.status .ResourceExhausted
         "reached max activations count for marble type"), c2store))
    ∧ (verifyManifestRequirement baseCore baseTlsCert [] "M" c2storeUnset =
      (.ok (), { c2storeUnset with acts := upsert c2storeUnset.acts "M" 0 })) :=
  ⟨(c2_max_activations baseCore baseTlsCert [] "M" c2store c2manifest
      Manifest.empty c2marble { SecurityVersion := 3 } rfl rfl (by decide)
      (by decide) rfl rfl rfl (by decide)).1 (by decide),
   (c2_max_activations baseCore baseTlsCert [] "M" c2storeUnset c2manifest
      Manifest.empty c2marble { SecurityVersion := 3 } rfl rfl (by decide)
      (by decide) rfl rfl rfl (by decide)).2 (by decide)⟩

theorem inc_acts_eq (st : StoreState) (t : String) :
    ((st.incrementActivations t).2).acts =
      (if st.incErr then st.acts else upsert st.acts t (alookupD st.acts t 0 + 1)) := by
  unfold StoreState.incrementActivations
  by_cases hi : st.incErr <;> simp [hi]

theorem inc_res_eq (st : StoreState) (t : String) :
    (st.incrementActivations t).1 =
      (if st.incErr then .error (.storeError "activations increment failed")
       else .ok ()) := by
  unfold StoreState.incrementActivations
  by_cases hi : st.incErr <;> simp [hi]

/-- C3: for every run of `Activate`, the persisted activation counter of the
requested marble type afterwards (an unset counter reading as 0) equals its
previous value plus 1 when the activation succeeded, and its previous value
unchanged on every error path. -/
theorem c3_counter_increment (c : Core) (o : Oracle) (tc : Option Certificate)
    (req : ActivationReq) (st : StoreState)
    (res : Except GoErr ActivationResp) (st' : StoreState)
    (h : Activate c o tc req st = (res, st')) :
    alookupD st'.acts req.MarbleType 0 =
      (match res with
       | .ok _ => alookupD st.acts req.MarbleType 0 + 1
       | .error _ => alookupD st.acts req.MarbleType 0) := by
  simp only [Activate] at h
  repeat' split at h
  all_goals cases h
  all_goals first
    | rfl
    | (simp [getPrivK_acts, generateMarbleAuthSecrets_acts,
         verifyManifestRequirement_acts]
       done)
    | (simp only [inc_acts_eq]
       split
       all_goals simp_all [inc_res_eq, alookupD_upsert_self, getPrivK_acts,
         generateMarbleAuthSecrets_acts, verifyManifestRequirement_acts])

theorem c3_counter_increment_witness :
    alookupD ((Activate baseCore okOracle (some baseTlsCert) baseReq baseStore).2).acts
        baseReq.MarbleType 0 =
      (match (Activate baseCore okOracle (some baseTlsCert) baseReq baseStore).1 with
       | .ok _ => alookupD baseStore.acts baseReq.MarbleType 0 + 1
       | .error _ => alookupD baseStore.acts baseReq.MarbleType 0) :=
  c3_counter_increment baseCore okOracle (some baseTlsCert) baseReq baseStore
    (Activate baseCore okOracle (some baseTlsCert) baseReq baseStore).1
    (Activate baseCore okOracle (some baseTlsCert) baseReq baseStore).2 rfl

/-- C1 (code bug): a transient failure of the intermediate-private-key read
in `Activate` does not abort the activation.  In `c1store` the read succeeds
on its first call (inside certificate issuance) and fails on its second —
the direct read in `Activate` whose error the source only logs before
continuing.  The run nevertheless returns a response and commits the counter:
the store error did not make `Activate` return an error, contradicting the
claim that every store error aborts the activation.  The last conjunct shows
the key was indeed read twice (so the failing read did happen). -/
theorem c1_privk_error_ignored :
    (Activate baseCore okOracle (some baseTlsCert) baseReq c1store).1.isOk = true
    ∧ ((Activate baseCore okOracle (some baseTlsCert) baseReq c1store).2).acts = [("M", 1)]
    ∧ (c1store.privks "intermediate" 1).isOk = false
    ∧ ((Activate baseCore okOracle (some baseTlsCert) baseReq c1store).2).privkCalls =
        [("root", 1), ("intermediate", 2)] :=
  ⟨by decide, by decide, by decide, by decide⟩

/-- C4 (counterexample): with an empty `req.UUID`, `Activate` fails, but the
error is the raw uuid parse error, which carries no status code: the gRPC
layer surfaces it as `Unknown`, not `InvalidArgument`. -/
theorem c4_uuid_error_not_invalid_argument :
    (Activate baseCore okOracle (some baseTlsCert) c4req baseStore).1 =
      .error (.uuidParseError "invalid UUID length")
    ∧ grpcCode (.uuidParseError "invalid UUID length") ≠ Code.InvalidArgument :=
  ⟨by decide, by decide⟩

theorem uuidParse_error_form {s : String} {e : GoErr}
    (h : uuidParse s = .error e) : ∃ m, e = GoErr.uuidParseError m := by
  unfold uuidParse at h
  split at h
  · split at h
    · exact Except.noConfusion h
    · injection h with h2
      exact ⟨"invalid UUID format", h2.symm⟩
  · injection h with h2
    exact ⟨"invalid UUID length", h2.symm⟩

/-- C4 (amended): if `req.UUID` does not parse, `Activate` fails — but the
returned error is the raw parse error from the uuid library, surfaced with
gRPC code `Unknown`, not an `InvalidArgument` status. -/
theorem c4_amended_uuid_error_raw (c : Core) (o : Oracle) (tc : Certificate)
    (req : ActivationReq) (st : StoreState) (e : GoErr)
    (hstate : c.state = CoreState.acceptingMarbles)
    (hverify : (verifyManifestRequirement c tc req.Quote req.MarbleType st).1 = .ok ())
    (huuid : uuidParse req.UUID = .error e) :
    (Activate c o (some tc) req st).1 = .error e ∧ grpcCode e = Code.Unknown := by
  constructor
  · simp [Activate, hstate, hverify, huuid]
  · rcases uuidParse_error_form huuid with ⟨m, rfl⟩
    rfl

theorem c4_amended_uuid_error_raw_witness :
    (Activate baseCore okOracle (some baseTlsCert) c4req baseStore).1 =
      .error (.uuidParseError "invalid UUID length")
    ∧ grpcCode (.uuidParseError "invalid UUID length") = Code.Unknown :=
  c4_amended_uuid_error_raw baseCore okOracle baseTlsCert c4req baseStore
    (.uuidParseError "invalid UUID length") rfl (by decide) (by decide)

theorem find?_isSome_of_perm {α : Type} {p : α → Bool} {l1 l2 : List α}
    (h : l1.Perm l2) : (l1.find? p).isSome = (l2.find? p).isSome := by
  cases hf1 : l1.find? p with
  | some a =>
      have hp := List.find?_some hf1
      have hm := List.mem_of_find?_eq_some hf1
      cases hf2 : l2.find? p with
      | some b => rfl
      | none =>
          have hall := List.find?_eq_none.mp hf2 a (h.mem_iff.mp hm)
          simp [hp] at hall
  | none =>
      cases hf2 : l2.find? p with
      | none => rfl
      | some b =>
          have hp := List.find?_some hf2
          have hm := List.mem_of_find?_eq_some hf2
          have hall := List.find?_eq_none.mp hf1 b (h.mem_iff.mpr hm)
          simp [hp] at hall

/-- C5 (counterexample): the infrastructure loop iterates Go's unspecified
map order, so "which infrastructure matches" is not stable.  `c5infras1` and
`c5infras2` are the same two-entry map in its two possible iteration orders
(they are permutations of each other); under a validator that accepts both,
the first match differs between the two orders, so it is not identical
across two runs on identical inputs. -/
theorem c5_first_match_order_dependent :
    List.Perm c5infras1 c5infras2
    ∧ firstMatchingInfra (fun _ => true) c5infras1 = some ("A", c5infraA)
    ∧ firstMatchingInfra (fun _ => true) c5infras2 = some ("B", c5infraB)
    ∧ firstMatchingInfra (fun _ => true) c5infras1 ≠
        firstMatchingInfra (fun _ => true) c5infras2 :=
  ⟨by decide, by decide, by decide, by decide⟩

/-- C5 (amended): quote validation accepts on the first infrastructure — in
Go's unspecified map iteration order — that validates, and whether the quote
is accepted at all does not depend on that order; when no infrastructure
validates the result is `Unauthenticated`; and with no infrastructures the
quote is validated once against the zero infrastructure properties.  (What
is not guaranteed, per the counterexample, is which infrastructure matches.) -/
theorem c5_amended_quote_validation (c : Core) (q raw : Bytes)
    (pkg : PackageProperties)
    (infras1 infras2 : List (String × InfrastructureProperties))
    (hperm : List.Perm infras1 infras2) :
    ((validateQuote c q raw pkg infras1).isOk = (validateQuote c q raw pkg infras2).isOk)
    ∧ (c.inSimulationMode = false → infras1 ≠ [] →
        firstMatchingInfra (c.qv q raw pkg) infras1 = none →
        validateQuote c q raw pkg infras1 =
          .error (.status .Unauthenticated "invalid quote"))
    ∧ (infras1 = [] →
        validateQuote c q raw pkg infras1 =
          (if c.inSimulationMode then .ok ()
           else if c.qv q raw pkg InfrastructureProperties.zero then .ok ()
           else .error (.status .Unauthenticated "invalid quote: validation failed"))) := by
  refine ⟨?_, ?_, ?_⟩
  · unfold validateQuote
    by_cases hs : c.inSimulationMode
    · simp [hs]
    · simp only [hs, Bool.false_eq_true, if_false]
      have hlen := hperm.length_eq
      by_cases h0 : infras1.length = 0
      · have h0' : infras2.length = 0 := by omega
        simp [h0, h0']
      · have h0' : ¬ infras2.length = 0 := by omega
        have hiff := find?_isSome_of_perm
          (p := fun kv => c.qv q raw pkg kv.2) hperm
        simp only [h0, h0', if_false, firstMatchingInfra]
        cases hf1 : List.find? (fun kv => c.qv q raw pkg kv.2) infras1 <;>
          cases hf2 : List.find? (fun kv => c.qv q raw pkg kv.2) infras2 <;>
          simp_all [Except.isOk]
  · intro hs hne hnone
    have h0 : ¬ infras1.length = 0 := by
      intro hh
      exact hne (List.length_eq_zero.mp hh)
    unfold validateQuote
    simp [hs, h0, hnone]
  · intro h0
    subst h0
    unfold validateQuote
    by_cases hs : c.inSimulationMode <;> simp [hs]

theorem c5_amended_quote_validation_witness :
    (validateQuote { baseCore with simulationMode := false } [] []
        { SecurityVersion := 3 } c5infras1).isOk =
      (validateQuote { baseCore with simulationMode := false } [] []
        { SecurityVersion := 3 } c5infras2).isOk :=
  (c5_amended_quote_validation { baseCore with simulationMode := false } [] []
    { SecurityVersion := 3 } c5infras1 c5infras2 (by decide)).1

set_option maxRecDepth 8000 in
/-- C6 (counterexample): the TTLS assembler runs BEFORE the parameter
templater, so its JSON is itself template-expanded: with a manifest whose
TLS entry carries a template action in its port string, the successful
response's `Env["MARBLE_TTLS_CONFIG"]` differs from the assembler's JSON
output.  The last conjunct checks that `c6auth` is exactly the reserved
secrets bundle generated inside this run, so the compared assembler output
is the one of the same run. -/
theorem c6_ttls_value_differs_from_assembler :
    c6respVal.isSome = true
    ∧ c6asmVal.isSome = true
    ∧ c6respVal ≠ c6asmVal
    ∧ (generateMarbleAuthSecrets okOracle baseReq.CSR baseReq.MarbleType
        { str := baseReq.UUID } { c6store with acts := [("M", 0)] }).1 = .ok c6auth :=
  ⟨by decide, by decide, by decide, by decide⟩

/-- Shared chain: with TLS tags present, `setTTLSConfig` puts its JSON under
`MARBLE_TTLS_CONFIG` (overwriting any manifest value), and a succeeding
`customizeParameters` carries the templated JSON into the output at the same
key. -/
theorem ttls_config_templated_through (marble : Marble)
    (params0 : Parameters) (auth : ReservedSecrets)
    (us : List (String × Secret)) (st : StoreState) (p' out : Parameters)
    (hnz : marble.TLS ≠ [])
    (hset : setTTLSConfig marble params0 auth us st = .ok p')
    (hcust : customizeParameters p' auth us = .ok out)
    (hnd : keysNodup params0.Env) :
    ∃ J v, alookup p'.Env "MARBLE_TTLS_CONFIG" = some J ∧
      parseSecrets J { Marblerun := auth, Secrets := us } = .ok v ∧
      alookup out.Env "MARBLE_TTLS_CONFIG" = some v := by
  have h0 : ¬ marble.TLS.length = 0 := by
    intro hh
    exact hnz (List.length_eq_zero.mp hh)
  unfold setTTLSConfig at hset
  rw [if_neg h0] at hset
  cases hcert : st.getCertificate "intermediate" with
  | error e => simp [hcert] at hset
  | ok icert =>
  cases hman : st.getManifest "main" with
  | error e => simp [hcert, hman] at hset
  | ok man =>
  simp only [hcert, hman] at hset
  injection hset with hset
  obtain ⟨J, hpe⟩ : ∃ J, p'.Env = upsert params0.Env "MARBLE_TTLS_CONFIG" J :=
    ⟨_, (congrArg Parameters.Env hset).symm⟩
  cases hfl : templateMap p'.Files { Marblerun := auth, Secrets := us } with
  | error e =>
      unfold customizeParameters at hcust
      simp [hfl] at hcust
  | ok files =>
  cases henv : templateMap p'.Env { Marblerun := auth, Secrets := us } with
  | error e =>
      unfold customizeParameters at hcust
      simp [hfl, henv] at hcust
  | ok env' =>
  unfold customizeParameters at hcust
  simp only [hfl, henv, encodeSecretDataToPem] at hcust
  injection hcust with hcust
  have hout : out.Env =
      upsert (upsert (upsert env' MarbleEnvironmentIntermediateCA
          (pemEncodeToMemory "CERTIFICATE" auth.RootCA.Cert.raw))
        MarbleEnvironmentCertificateChain
          (pemEncodeToMemory "CERTIFICATE" auth.MarbleCert.Cert.raw ++
           pemEncodeToMemory "CERTIFICATE" auth.RootCA.Cert.raw))
        MarbleEnvironmentPrivateKey
          (pemEncodeToMemory "PRIVATE KEY" auth.MarbleCert.Private) :=
    (congrArg Parameters.Env hcust).symm
  have hnd' : keysNodup p'.Env := by
    rw [hpe]
    exact keysNodup_upsert _ _ hnd
  have hkey : alookup p'.Env "MARBLE_TTLS_CONFIG" = some J := by
    rw [hpe]
    exact alookup_upsert_self _ _ _
  rcases templateMap_alookup_some henv hnd' hkey with ⟨v, hv, henvk⟩
  refine ⟨J, v, hkey, hv, ?_⟩
  rw [hout,
    alookup_upsert_ne _ _ _ _ (by decide),
    alookup_upsert_ne _ _ _ _ (by decide),
    alookup_upsert_ne _ _ _ _ (by decide)]
  exact henvk

/-- C6 (amended): the TTLS assembler writes `Env["MARBLE_TTLS_CONFIG"]`
before the templater runs: it overwrites any manifest-provided value of the
key with its JSON, and the templater then processes that JSON like any other
environment value — the response value is the templated assembler output
(equal to the assembler's JSON exactly when the JSON contains no template
actions). -/
theorem c6_amended_assembler_before_templater (marble : Marble)
    (params0 : Parameters) (auth : ReservedSecrets)
    (us : List (String × Secret)) (st : StoreState) (p' out : Parameters)
    (hnz : marble.TLS ≠ [])
    (hset : setTTLSConfig marble params0 auth us st = .ok p')
    (hcust : customizeParameters p' auth us = .ok out)
    (hnd : keysNodup params0.Env) :
    ∃ J v, alookup p'.Env "MARBLE_TTLS_CONFIG" = some J ∧
      parseSecrets J { Marblerun := auth, Secrets := us } = .ok v ∧
      alookup out.Env "MARBLE_TTLS_CONFIG" = some v :=
  ttls_config_templated_through marble params0 auth us st p' out hnz hset hcust hnd

set_option maxRecDepth 8000 in
theorem c6_amended_assembler_before_templater_witness :
    ∃ J v,
      alookup ((setTTLSConfig c6marble Parameters.empty c6auth []
          c6store).toOption.getD Parameters.empty).Env "MARBLE_TTLS_CONFIG" = some J ∧
      parseSecrets J { Marblerun := c6auth, Secrets := [] } = .ok v ∧
      alookup ((customizeParameters ((setTTLSConfig c6marble Parameters.empty c6auth []
          c6store).toOption.getD Parameters.empty) c6auth
          []).toOption.getD Parameters.empty).Env "MARBLE_TTLS_CONFIG" = some v :=
  c6_amended_assembler_before_templater c6marble Parameters.empty c6auth [] c6store
    ((setTTLSConfig c6marble Parameters.empty c6auth [] c6store).toOption.getD
      Parameters.empty)
    ((customizeParameters ((setTTLSConfig c6marble Parameters.empty c6auth []
        c6store).toOption.getD Parameters.empty) c6auth []).toOption.getD
      Parameters.empty)
    (by decide) (by decide) (by decide) (by simp [keysNodup, Parameters.empty])

theorem encodeSecretDataToPem_error_form {d : SecretData} {e : GoErr}
    (h : encodeSecretDataToPem d = .error e) : ∃ m, e = GoErr.templateError m := by
  cases d <;> first
    | exact Except.noConfusion h
    | (injection h with h2
       exact ⟨_, h2.symm⟩)

theorem encodeSecretDataToRaw_error_form {d : SecretData} {e : GoErr}
    (h : encodeSecretDataToRaw d = .error e) : ∃ m, e = GoErr.templateError m := by
  cases d <;> exact Except.noConfusion h

theorem encodeSecretDataToHex_error_form {d : SecretData} {e : GoErr}
    (h : encodeSecretDataToHex d = .error e) : ∃ m, e = GoErr.templateError m := by
  cases d <;> simp [encodeSecretDataToHex, encodeSecretDataToRaw] at h

theorem encodeSecretDataToBase64_error_form {d : SecretData} {e : GoErr}
    (h : encodeSecretDataToBase64 d = .error e) : ∃ m, e = GoErr.templateError m := by
  cases d <;> simp [encodeSecretDataToBase64, encodeSecretDataToRaw] at h

theorem evalPath_error_form {w : SecretsWrapper} {p : String} {e : GoErr}
    (h : evalPath w p = .error e) : ∃ m, e = GoErr.templateError m := by
  unfold evalPath at h
  repeat' split at h
  all_goals first
    | exact Except.noConfusion h
    | (injection h with h2
       exact ⟨_, h2.symm⟩)

theorem evalDirective_error_form {w : SecretsWrapper} {inner : List Char} {e : GoErr}
    (h : evalDirective w inner = .error e) : ∃ m, e = GoErr.templateError m := by
  unfold evalDirective at h
  repeat' split at h
  all_goals first
    | exact Except.noConfusion h
    | (injection h with h2
       exact ⟨_, h2.symm⟩)
    | (injection h with h2
       subst h2
       exact evalPath_error_form (by assumption))
    | exact encodeSecretDataToPem_error_form h
    | exact encodeSecretDataToHex_error_form h
    | exact encodeSecretDataToRaw_error_form h
    | exact encodeSecretDataToBase64_error_form h

theorem parseSecretsGo_error_form (w : SecretsWrapper) :
    ∀ (l : List (List Char)) (acc : String) (e : GoErr),
    parseSecretsGo w acc l = .error e → ∃ m, e = GoErr.templateError m := by
  intro l
  induction l with
  | nil =>
      intro acc e h
      exact Except.noConfusion h
  | cons piece rest ih =>
      intro acc e h
      unfold parseSecretsGo at h
      repeat' split at h
      all_goals first
        | exact Except.noConfusion h
        | (injection h with h2
           exact ⟨_, h2.symm⟩)
        | (injection h with h2
           subst h2
           exact evalDirective_error_form (by assumption))
        | exact ih _ _ h

theorem parseSecrets_error_form {data : String} {w : SecretsWrapper} {e : GoErr}
    (h : parseSecrets data w = .error e) : ∃ m, e = GoErr.templateError m := by
  unfold parseSecrets at h
  split at h
  · exact Except.noConfusion h
  · exact parseSecretsGo_error_form w _ _ _ h

/-- C7 (counterexample): a failing template in a `Files` entry surfaces as
the raw template error, not as an `Internal` status: the identical error
value is returned for two different file paths — so the error does not carry
the path — and its gRPC code is not `Internal`. -/
theorem c7_template_error_not_internal :
    customizeParameters { Argv := [], Files := [("f.txt", "\x7b\x7bbad")], Env := [] }
        c6auth [] = .error (.templateError "unclosed action")
    ∧ customizeParameters { Argv := [], Files := [("g.txt", "\x7b\x7bbad")], Env := [] }
        c6auth [] = .error (.templateError "unclosed action")
    ∧ grpcCode (.templateError "unclosed action") ≠ Code.Internal :=
  ⟨by decide, by decide, by decide⟩

/-- C7 (amended): whenever template expansion of a `Files` or `Env` entry
fails, `customizeParameters` returns that entry's `parseSecrets` error
verbatim — a raw template error with no `Internal` status and no path or
variable name attached — which the gRPC layer surfaces as `Unknown`. -/
theorem c7_amended_raw_template_error (params : Parameters)
    (auth : ReservedSecrets) (us : List (String × Secret)) (e : GoErr)
    (h : customizeParameters params auth us = .error e) :
    ((∃ kv, kv ∈ params.Files ∧
        parseSecrets kv.2 { Marblerun := auth, Secrets := us } = .error e)
      ∨ (∃ kv, kv ∈ params.Env ∧
          parseSecrets kv.2 { Marblerun := auth, Secrets := us } = .error e))
    ∧ grpcCode e = Code.Unknown := by
  have hsrc : (∃ kv, kv ∈ params.Files ∧
        parseSecrets kv.2 { Marblerun := auth, Secrets := us } = .error e)
      ∨ (∃ kv, kv ∈ params.Env ∧
          parseSecrets kv.2 { Marblerun := auth, Secrets := us } = .error e) := by
    unfold customizeParameters at h
    cases hfl : templateMap params.Files { Marblerun := auth, Secrets := us } with
    | error e1 =>
        simp only [hfl] at h
        injection h with h2
        subst h2
        exact Or.inl (templateMap_error hfl)
    | ok files =>
        cases henv : templateMap params.Env { Marblerun := auth, Secrets := us } with
        | error e1 =>
            simp only [hfl, henv] at h
            injection h with h2
            subst h2
            exact Or.inr (templateMap_error henv)
        | ok env' =>
            simp only [hfl, henv, encodeSecretDataToPem] at h
            exact Except.noConfusion h
  refine ⟨hsrc, ?_⟩
  rcases hsrc with ⟨kv, _, hp⟩ | ⟨kv, _, hp⟩ <;>
    (rcases parseSecrets_error_form hp with ⟨m, rfl⟩
     rfl)

theorem c7_amended_raw_template_error_witness :
    ((∃ kv, kv ∈ ({ Argv := [], Files := [("f.txt", "\x7b\x7bbad")], Env := [] } : Parameters).Files ∧
        parseSecrets kv.2 { Marblerun := c6auth, Secrets := [] } =
          .error (.templateError "unclosed action"))
      ∨ (∃ kv, kv ∈ ({ Argv := [], Files := [("f.txt", "\x7b\x7bbad")], Env := [] } : Parameters).Env ∧
          parseSecrets kv.2 { Marblerun := c6auth, Secrets := [] } =
            .error (.templateError "unclosed action")))
    ∧ grpcCode (.templateError "unclosed action") = Code.Unknown :=
  c7_amended_raw_template_error
    { Argv := [], Files := [("f.txt", "\x7b\x7bbad")], Env := [] } c6auth []
    (.templateError "unclosed action") (by decide)

/-- C8: after templating, `customizeParameters` always overwrites the three
reserved environment variables from the reserved secrets — `EDG_CA` with the
intermediate CA certificate PEM, `EDG_CERT_CHAIN` with the leaf PEM followed
by the intermediate PEM, `EDG_PRIVATE_KEY` with the leaf PKCS#8 private-key
PEM — regardless of any values the manifest assigned to those keys (the
theorem quantifies over all input parameters). -/
theorem c8_reserved_env_overwritten (params out : Parameters)
    (auth : ReservedSecrets) (us : List (String × Secret))
    (h : customizeParameters params auth us = .ok out) :
    alookup out.Env MarbleEnvironmentIntermediateCA =
      some (pemEncodeToMemory "CERTIFICATE" auth.RootCA.Cert.raw)
    ∧ alookup out.Env MarbleEnvironmentCertificateChain =
      some (pemEncodeToMemory "CERTIFICATE" auth.MarbleCert.Cert.raw ++
            pemEncodeToMemory "CERTIFICATE" auth.RootCA.Cert.raw)
    ∧ alookup out.Env MarbleEnvironmentPrivateKey =
      some (pemEncodeToMemory "PRIVATE KEY" auth.MarbleCert.Private) := by
  unfold customizeParameters at h
  cases hfl : templateMap params.Files { Marblerun := auth, Secrets := us } with
  | error e => simp [hfl] at h
  | ok files =>
  cases henv : templateMap params.Env { Marblerun := auth, Secrets := us } with
  | error e => simp [hfl, henv] at h
  | ok env' =>
  simp only [hfl, henv, encodeSecretDataToPem] at h
  injection h with h
  have hout := (congrArg Parameters.Env h).symm
  refine ⟨?_, ?_, ?_⟩
  · rw [hout, alookup_upsert_ne _ _ _ _ (by decide),
      alookup_upsert_ne _ _ _ _ (by decide)]
    exact alookup_upsert_self _ _ _
  · rw [hout, alookup_upsert_ne _ _ _ _ (by decide)]
    exact alookup_upsert_self _ _ _
  · rw [hout]
    exact alookup_upsert_self _ _ _

theorem c8_reserved_env_overwritten_witness :
    alookup ((customizeParameters { Argv := [], Files := [], Env := [("EDG_CA", "evil")] }
          c6auth []).toOption.getD Parameters.empty).Env
        MarbleEnvironmentIntermediateCA =
      some (pemEncodeToMemory "CERTIFICATE" c6auth.RootCA.Cert.raw)
    ∧ alookup ((customizeParameters { Argv := [], Files := [], Env := [("EDG_CA", "evil")] }
          c6auth []).toOption.getD Parameters.empty).Env
        MarbleEnvironmentCertificateChain =
      some (pemEncodeToMemory "CERTIFICATE" c6auth.MarbleCert.Cert.raw ++
            pemEncodeToMemory "CERTIFICATE" c6auth.RootCA.Cert.raw)
    ∧ alookup ((customizeParameters { Argv := [], Files := [], Env := [("EDG_CA", "evil")] }
          c6auth []).toOption.getD Parameters.empty).Env
        MarbleEnvironmentPrivateKey =
      some (pemEncodeToMemory "PRIVATE KEY" c6auth.MarbleCert.Private) :=
  c8_reserved_env_overwritten
    { Argv := [], Files := [], Env := [("EDG_CA", "evil")] }
    ((customizeParameters { Argv := [], Files := [], Env := [("EDG_CA", "evil")] }
        c6auth []).toOption.getD Parameters.empty)
    c6auth [] (by decide)

/-- C9 (counterexample): a marble with no TLS tags can still have a
`MARBLE_TTLS_CONFIG` entry in its successful response: `setTTLSConfig` is a
no-op, but a manifest-provided environment entry of that name passes through
the templater into the response — the key is not absent. -/
theorem c9_ttls_key_present_without_tls :
    c9respVal = some "x" ∧ c9marble.TLS = [] :=
  ⟨by decide, by decide⟩

/-- C9 (amended): `setTTLSConfig` leaves the parameters untouched when the
marble has no TLS tags, so `MARBLE_TTLS_CONFIG` appears in the response
parameters exactly when the manifest's parameters already carry it — absent
when the manifest does not provide it; when the marble has at least one TLS
tag, a successful run always produces it. -/
theorem c9_amended_ttls_presence (marble : Marble) (params0 : Parameters)
    (auth : ReservedSecrets) (us : List (String × Secret)) (st : StoreState)
    (p' out : Parameters) :
    (marble.TLS = [] → setTTLSConfig marble params0 auth us st = .ok params0)
    ∧ (marble.TLS = [] → alookup params0.Env "MARBLE_TTLS_CONFIG" = none →
        customizeParameters params0 auth us = .ok out →
        alookup out.Env "MARBLE_TTLS_CONFIG" = none)
    ∧ (marble.TLS ≠ [] → keysNodup params0.Env →
        setTTLSConfig marble params0 auth us st = .ok p' →
        customizeParameters p' auth us = .ok out →
        (alookup out.Env "MARBLE_TTLS_CONFIG").isSome = true) := by
  refine ⟨?_, ?_, ?_⟩
  · intro hz
    simp [setTTLSConfig, hz]
  · intro hz hnone hcust
    unfold customizeParameters at hcust
    cases hfl : templateMap params0.Files { Marblerun := auth, Secrets := us } with
    | error e => simp [hfl] at hcust
    | ok files =>
    cases henv : templateMap params0.Env { Marblerun := auth, Secrets := us } with
    | error e => simp [hfl, henv] at hcust
    | ok env' =>
    simp only [hfl, henv, encodeSecretDataToPem] at hcust
    injection hcust with hcust
    have hout := (congrArg Parameters.Env hcust).symm
    rw [hout, alookup_upsert_ne _ _ _ _ (by decide),
      alookup_upsert_ne _ _ _ _ (by decide),
      alookup_upsert_ne _ _ _ _ (by decide)]
    exact templateMap_alookup_none henv hnone
  · intro hnz hnd hset hcust
    rcases ttls_config_templated_through marble params0 auth us st p' out
      hnz hset hcust hnd with ⟨J, v, _, _, hk⟩
    rw [hk]
    rfl

set_option maxRecDepth 8000 in
theorem c9_amended_ttls_presence_witness :
    setTTLSConfig c9marble { Parameters.empty with Env := [("MARBLE_TTLS_CONFIG", "x")] }
        c6auth [] c9store =
      .ok { Parameters.empty with Env := [("MARBLE_TTLS_CONFIG", "x")] } :=
  (c9_amended_ttls_presence c9marble
    { Parameters.empty with Env := [("MARBLE_TTLS_CONFIG", "x")] }
    c6auth [] c9store Parameters.empty Parameters.empty).1 (by decide)

/-- C10: an incoming TLS entry whose `Cert` field names a secret missing
from the user-secret map does not make `setTTLSConfig` fail: the Go map read
yields the zero `Secret`, so `clicrt` and `clikey` are PEM encodings of the
zero secret's empty certificate and key bytes, and `clientAuth` is still the
negation of `DisableClientAuth`.  Stated for a marble with one tag whose
incoming list ends with the entry (a later entry on the same port would
overwrite it, matching Go map writes). -/
theorem c10_missing_user_secret_zero_value (marble : Marble) (tag : String)
    (entry : TLSTagEntry) (es os : List TLSTagEntry)
    (params : Parameters) (auth : ReservedSecrets)
    (us : List (String × Secret)) (st : StoreState)
    (icert : Certificate) (man : Manifest)
    (hTLS : marble.TLS = [tag])
    (hcert : st.getCertificate "intermediate" = .ok icert)
    (hman : st.getManifest "main" = .ok man)
    (htag : alookup man.TLS tag = some { Outgoing := os, Incoming := es ++ [entry] })
    (hce : entry.Cert ≠ "")
    (hmiss : alookup us entry.Cert = none) :
    (∃ p', setTTLSConfig marble params auth us st = .ok p')
    ∧ alookup (buildTTLSConf (pemEncodeToMemory "CERTIFICATE" icert.raw)
        (pemEncodeToMemory "CERTIFICATE" auth.MarbleCert.Cert.raw)
        (pemEncodeToMemory "PRIVATE KEY" auth.MarbleCert.Private)
        us man.TLS marble.TLS).2 ("*:" ++ entry.Port) =
      some { cacrt := pemEncodeToMemory "CERTIFICATE" icert.raw,
             clicrt := pemEncodeToMemory "CERTIFICATE" Secret.zero.Cert.raw,
             clikey := pemEncodeToMemory "PRIVATE KEY" Secret.zero.Private,
             clientAuth := some (!entry.DisableClientAuth) } := by
  constructor
  · simp [setTTLSConfig, hTLS, hcert, hman]
  · simp only [buildTTLSConf, hTLS, List.foldl_cons, List.foldl_nil, alookupD,
      htag, Option.getD_some, List.foldl_append]
    rw [alookup_upsert_self]
    simp [incomingConnConf, hce, alookupD, hmiss]

theorem c10_missing_user_secret_zero_value_witness :
    (∃ p', setTTLSConfig c6marble Parameters.empty c6auth [] c10store = .ok p')
    ∧ alookup (buildTTLSConf
        (pemEncodeToMemory "CERTIFICATE" baseIntermediateCert.raw)
        (pemEncodeToMemory "CERTIFICATE" c6auth.MarbleCert.Cert.raw)
        (pemEncodeToMemory "PRIVATE KEY" c6auth.MarbleCert.Private)
        [] c10manifest.TLS c6marble.TLS).2 ("*:" ++ c10entry.Port) =
      some { cacrt := pemEncodeToMemory "CERTIFICATE" baseIntermediateCert.raw,
             clicrt := pemEncodeToMemory "CERTIFICATE" Secret.zero.Cert.raw,
             clikey := pemEncodeToMemory "PRIVATE KEY" Secret.zero.Private,
             clientAuth := some (!c10entry.DisableClientAuth) } :=
  c10_missing_user_secret_zero_value c6marble "t" c10entry [] []
    Parameters.empty c6auth [] c10store baseIntermediateCert c10manifest
    (by decide) (by decide) (by decide) (by decide) (by decide) (by decide)
